import Mathlib

/-!
# Broadcom FullMAC control-plane driver (`bcmf_driver.c`)

A shallow embedding of the control plane of
`drivers/wireless/ieee80211/bcmf_driver.c`:

* `bcmf_allocate_device` (construction),
* `bcmf_wl_is_scan_done`, `bcmf_wl_start_scan` (caller context),
* `bcmf_wl_scan_event_handler` (event context),
* `bcmf_wl_scan_timeout` (watchdog context),
* `bcmf_wl_auth_event_handler` (event context),
* `bcmf_wl_set_auth_param`, `bcmf_wl_set_mode`, `bcmf_wl_set_encode_ext`,
  `bcmf_wl_set_ssid` (caller context),

and of `icmp_send` (`net/icmp/icmp_send.c`, IPv4 build).

The device structure is passed explicitly; every operation returns the new
device structure together with the list of calls it made to its collaborators
(transport, allocator, semaphores, watchdog).  Logging calls (`wlinfo`,
`wlerr`, `bcmf_hexdump`) have no effect on the device and are left out.
Unsigned C arithmetic is carried out on `Nat` modulo `2 ^ 32`.
-/

namespace Bcmf

/-! ## Constants -/

/-- The `OK` return value. -/
def OK : Int := 0

/-- The `ERROR` return value. -/
def ERROR : Int := -1

/-- Modelled from the spec: `errno.h` is not among the sources; the I/O error
number of NuttX. -/
def EIO_errno : Int := 5

/-- Modelled from the spec: `errno.h` is not among the sources; the "try again"
error number of NuttX. -/
def EAGAIN : Int := 11

/-- Modelled from the spec: `errno.h` is not among the sources; the out-of-memory
error number of NuttX. -/
def ENOMEM : Int := 12

/-- Modelled from the spec: `errno.h` is not among the sources; the invalid-state /
invalid-argument error number of NuttX. -/
def EINVAL : Int := 22

/-- The constant `DOT11_BSSTYPE_ANY`. -/
def DOT11_BSSTYPE_ANY : Int := 2

/-- AP scan state machine status: `BCMF_SCAN_TIMEOUT = 0`. -/
def BCMF_SCAN_TIMEOUT : Int := 0

/-- AP scan state machine status: `BCMF_SCAN_DISABLED`. -/
def BCMF_SCAN_DISABLED : Int := 1

/-- AP scan state machine status: `BCMF_SCAN_RUN`. -/
def BCMF_SCAN_RUN : Int := 2

/-- AP scan state machine status: `BCMF_SCAN_DONE`. -/
def BCMF_SCAN_DONE : Int := 3

/-- Modelled from the spec: the headers that declare the firmware constants and the
frame structures (`bcmf_ioctl.h`, `bcmf_driver.h`, `bcmf_utils.h`, the board clock
configuration) are not among the sources, so the constants, structure sizes and field
offsets the driver uses are parameters. -/
structure Config where
  /-- scheduler ticks per second -/
  CLOCKS_PER_SEC : Nat
  /-- event status "success" -/
  WLC_E_STATUS_SUCCESS : Nat
  /-- event status "partial" (more frames follow) -/
  WLC_E_STATUS_PARTIAL : Nat
  /-- version word of an escan request -/
  ESCAN_REQ_VERSION : Nat
  /-- action word "start" of an escan request -/
  WL_SCAN_ACTION_START : Nat
  /-- Size `sizeof(struct bcmf_event_s)` -/
  sizeof_bcmf_event_s : Nat
  /-- Offset `offsetof(struct bcmf_event_s, status)` -/
  off_event_status : Nat
  /-- Offset `offsetof(struct bcmf_event_s, reason)` -/
  off_event_reason : Nat
  /-- Offset `offsetof(struct bcmf_event_s, len)` -/
  off_event_len : Nat
  /-- Size `sizeof(struct wl_escan_result)` -/
  sizeof_wl_escan_result : Nat
  /-- Offset `offsetof(struct wl_escan_result, buflen)` -/
  off_result_buflen : Nat
  /-- Offset `offsetof(struct wl_escan_result, bss_count)` -/
  off_result_bss_count : Nat
  /-- Offset `offsetof(struct wl_escan_result, bss_info)` -/
  off_result_bss_info : Nat
  /-- Size `sizeof(struct wl_bss_info)` -/
  sizeof_wl_bss_info : Nat
  /-- Offset `offsetof(struct wl_bss_info, length)` -/
  off_bss_length : Nat
  /-- Offset `offsetof(struct bcmf_event_s, type)` -/
  off_event_type : Nat
  /-- event type "SSID set" -/
  WLC_E_SET_SSID : Nat
  deriving DecidableEq, Repr

/-- The scan timeout `BCMF_SCAN_TIMEOUT_TICK = 5*CLOCKS_PER_SEC`. -/
def BCMF_SCAN_TIMEOUT_TICK (cfg : Config) : Nat := 5 * cfg.CLOCKS_PER_SEC

/-! ## Data model -/

/-- The `params` member of the escan request (`struct wl_scan_params`), restricted to
the members `bcmf_wl_start_scan` writes; the others stay zero after the `memset`. -/
structure wl_scan_params where
  bssid : List Nat
  bss_type : Int
  scan_type : Int
  nprobes : Int
  active_time : Int
  passive_time : Int
  home_time : Int
  channel_num : Int
  deriving DecidableEq, Repr

/-- The scan request buffer (`struct wl_escan_params`). -/
structure wl_escan_params where
  version : Nat
  action : Nat
  sync_id : Nat
  params : wl_scan_params
  deriving DecidableEq, Repr

/-- Watchdog entry points used by the driver. -/
inductive wdentry where
  | bcmf_wl_scan_timeout
  deriving DecidableEq, Repr

/-- State of the watchdog behind `priv->scan_timeout`: idle, or started with a delay
(in ticks) and an entry point. -/
inductive Wdog where
  | idle
  | active (delay : Nat) (wdentry : wdentry)
  deriving DecidableEq, Repr

/-- The members of `struct bcmf_dev_s` the control plane uses.  `scan_params = none`
is the `NULL` pointer; the three semaphores are given by their counts. -/
structure bcmf_dev_s where
  control_mutex : Int
  control_timeout : Int
  auth_signal : Int
  scan_status : Int
  scan_timeout : Wdog
  scan_params : Option wl_escan_params
  auth_status : Int
  deriving DecidableEq, Repr

/-- Control operations sent with `bcmf_cdc_ioctl`. -/
inductive IoctlCmd where
  | WLC_SET_PASSIVE_SCAN
  | WLC_SET_WPA_AUTH (auth_mode : Nat)
  | WLC_SET_WSEC (cipher_mode : Nat)
  | WLC_SET_AUTH (wep_auth : Nat)
  | WLC_SET_INFRA (value : Nat)
  | WLC_SET_WSEC_PMK (key : List Nat) (key_len : Nat) (flags : Nat)
  | WLC_SET_SSID (ssid : List Nat) (ssid_len : Nat)
  deriving DecidableEq, Repr

/-- Named control operations sent with the iovar requests. -/
inductive IovarName where
  | IOVAR_STR_ESCAN
  | bsscfg_IOVAR_STR_SUP_WPA (interface : Int) (sup_wpa : Nat)
  deriving DecidableEq, Repr

/-- Calls a driver operation makes to its collaborators, in program order. -/
inductive Effect where
  | bcmf_cdc_ioctl (cmd : IoctlCmd)
  | bcmf_cdc_iovar_request (name : IovarName)
  | sem_wait_control_mutex
  | sem_post_control_mutex
  | kmm_malloc
  | free (p : Option wl_escan_params)
  | wd_start (delay : Nat) (entry : wdentry)
  | wd_cancel
  | sem_post_auth_signal
  | bcmf_sem_wait_auth_signal (ret : Int)
  deriving DecidableEq, Repr

/-! ## Collaborators -/

/-- Modelled from the spec: `sem_post` of the OS is not among the sources; posting a
countable signal adds one to its count. -/
def sem_post (count : Int) : Int := count + 1

/-- Modelled from the spec: `sem_wait` of the OS is not among the sources.  A free gate
(positive count) is taken at once: the call returns `OK` and the count drops by one.
On a held gate the wait blocks: `none` when nothing ends the wait for the caller,
`ERROR` with the count untouched when the wait is interrupted. -/
def sem_wait (count : Int) (interrupted : Bool) : Option (Int × Int) :=
  if 0 < count then some (OK, count - 1)
  else if interrupted then some (ERROR, count)
  else none

/-- Modelled from the spec: `wd_start` of the OS is not among the sources; it (re)arms
the one-shot timer with the delay and entry point given. -/
def wd_start (_wdog : Wdog) (delay : Nat) (entry : wdentry) : Wdog :=
  Wdog.active delay entry

/-- Modelled from the spec: `wd_cancel` of the OS is not among the sources; it leaves the
timer idle, and is a no-op on an idle timer. -/
def wd_cancel (_wdog : Wdog) : Wdog := Wdog.idle

/-! ## Reading a frame -/

/-- Reduction to an `unsigned int` / `uint32_t` value. -/
def u32 (x : Int) : Nat := (x % 4294967296).toNat

/-- Modelled from the spec: `bcmf_getle32` (`bcmf_utils.c`) is not among the sources;
it reads a 32-bit little-endian word.  The frame is the memory at and after `event`,
one byte per offset. -/
def bcmf_getle32 (mem : Nat → Nat) (off : Nat) : Nat :=
  mem off % 256 + 256 * (mem (off + 1) % 256) + 65536 * (mem (off + 2) % 256)
    + 16777216 * (mem (off + 3) % 256)

/-- Modelled from the spec: the declarations of `struct wl_escan_result` and
`struct wl_bss_info` are not among the sources; `result->buflen` and `bss->length` are
32-bit members, read directly on the little-endian target. -/
def read_u32 (mem : Nat → Nat) (off : Nat) : Nat :=
  mem off % 256 + 256 * (mem (off + 1) % 256) + 65536 * (mem (off + 2) % 256)
    + 16777216 * (mem (off + 3) % 256)

/-- Modelled from the spec: the declaration of `struct wl_escan_result` is not among
the sources; `result->bss_count` is a 16-bit member, read directly on the
little-endian target. -/
def read_u16 (mem : Nat → Nat) (off : Nat) : Nat :=
  mem off % 256 + 256 * (mem (off + 1) % 256)

/-! ## `bcmf_wl_is_scan_done` -/

/-- The function `bcmf_wl_is_scan_done`: the return value and the (untouched) device. -/
def bcmf_wl_is_scan_done (priv : bcmf_dev_s) : Int × bcmf_dev_s :=
  if priv.scan_status = BCMF_SCAN_RUN then
    (-EAGAIN, priv)
  else if priv.scan_status = BCMF_SCAN_DONE then
    (OK, priv)
  else
    (-EINVAL, priv)

/-! ## `bcmf_wl_scan_timeout` -/

/-- The watchdog entry `bcmf_wl_scan_timeout`, with `priv` the device it was armed
for. -/
def bcmf_wl_scan_timeout (priv : bcmf_dev_s) : bcmf_dev_s × List Effect :=
  if priv.scan_status < BCMF_SCAN_RUN then
    -- Fatal error, invalid scan status
    (priv, [])
  else
    ({ priv with
        scan_status := BCMF_SCAN_TIMEOUT
        scan_params := none
        control_mutex := sem_post priv.control_mutex },
     [Effect.free priv.scan_params, Effect.sem_post_control_mutex])

/-! ## `bcmf_wl_scan_event_handler` -/

/-- How the loop over the `bss_info` records of a result envelope ends: by its loop
condition (`processed`, with the bytes left and the records counted), or at a record
whose declared length `bss_info_len` exceeds the `len` bytes left
(`bss_len_error`, the `goto exit_invalid_frame` inside the loop). -/
inductive BssWalk where
  | processed (len : Nat) (bss_count : Nat)
  | bss_len_error (len : Nat) (bss_info_len : Nat) (bss_count : Nat)
  deriving DecidableEq, Repr

/-- The loop `while (len > 0 && bss_count < result->bss_count)` of the event handler.
The first argument is `result->bss_count - bss_count`, the number of records the
counter still admits; `bss` is the offset of the current record in the frame. -/
def bss_loop (cfg : Config) (mem : Nat → Nat) : Nat → Nat → Nat → Nat → BssWalk
  | 0, len, _, bss_count => BssWalk.processed len bss_count
  | todo + 1, len, bss, bss_count =>
    if 0 < len then
      let bss_info_len := read_u32 mem (bss + cfg.off_bss_length)
      if len < bss_info_len then
        BssWalk.bss_len_error len bss_info_len bss_count
      else
        -- Process next bss_info
        bss_loop cfg mem todo (len - bss_info_len) (bss + bss_info_len) (bss_count + 1)
    else
      BssWalk.processed len bss_count

/-- What the payload checks of the event handler make of a frame. -/
inductive EscanParse where
  /-- Exit `len == sizeof(struct wl_escan_result) - sizeof(struct wl_bss_info)` -/
  | nothing_to_process
  /-- Exit `len < sizeof(struct wl_escan_result)` -/
  | too_short
  /-- Exit `len < result->buflen || result->buflen < sizeof(struct wl_escan_result)` -/
  | bad_buflen
  /-- The records were walked. -/
  | walked (w : BssWalk)
  deriving DecidableEq, Repr

/-- The value of `len` in `bcmf_wl_scan_event_handler` once the event header has
been subtracted (`len -= sizeof(struct bcmf_event_s)`, unsigned) and the result has
been limited to `event->len`.  The argument `len` is the total frame length the
handler is called with. -/
def escan_payload_len (cfg : Config) (event : Nat → Nat) (len : Nat) : Nat :=
  let escan_result_len := bcmf_getle32 event cfg.off_event_len
  let len := u32 ((len : Int) - (cfg.sizeof_bcmf_event_s : Int))
  if len > escan_result_len then escan_result_len else len

/-- The value of `len` on entry to the loop over the records:
`result->buflen - sizeof(struct wl_escan_result) + sizeof(struct wl_bss_info)`. -/
def escan_records_len (cfg : Config) (event : Nat → Nat) : Nat :=
  u32 ((read_u32 event (cfg.sizeof_bcmf_event_s + cfg.off_result_buflen) : Int)
        - (cfg.sizeof_wl_escan_result : Int) + (cfg.sizeof_wl_bss_info : Int))

/-- The payload processing of `bcmf_wl_scan_event_handler`, from the read of
`event->len` to the label `wl_escan_result_processed`.  `len` is the total frame
length the handler is called with. -/
def escan_result_process (cfg : Config) (event : Nat → Nat) (len : Nat) : EscanParse :=
  let len := escan_payload_len cfg event len
  if len = u32 ((cfg.sizeof_wl_escan_result : Int) - (cfg.sizeof_wl_bss_info : Int)) then
    -- Nothing to process, may be scan done event
    EscanParse.nothing_to_process
  else if len < cfg.sizeof_wl_escan_result then
    EscanParse.too_short
  else
    -- Process escan result payload
    let result := cfg.sizeof_bcmf_event_s
    let buflen := read_u32 event (result + cfg.off_result_buflen)
    if len < buflen ∨ buflen < cfg.sizeof_wl_escan_result then
      EscanParse.bad_buflen
    else
      -- wl_escan_result already contains a wl_bss_info field
      let len := escan_records_len cfg event
      let bss := result + cfg.off_result_bss_info
      let bss_count := read_u16 event (result + cfg.off_result_bss_count)
      EscanParse.walked (bss_loop cfg event bss_count len bss 0)

/-- Whether the payload processing reaches `wl_escan_result_processed` (true) or
`exit_invalid_frame` (false). -/
def EscanParse.reaches_processed : EscanParse → Bool
  | EscanParse.nothing_to_process => true
  | EscanParse.walked (BssWalk.processed _ _) => true
  | _ => false

/-- The event handler `bcmf_wl_scan_event_handler`; `event` is the memory at and
after the event structure, `len` the frame length passed in. -/
def bcmf_wl_scan_event_handler (cfg : Config) (priv : bcmf_dev_s)
    (event : Nat → Nat) (len : Nat) : bcmf_dev_s × List Effect :=
  if priv.scan_status < BCMF_SCAN_RUN then
    -- Got Unexpected scan event
    (priv, [])
  else
    let status := bcmf_getle32 event cfg.off_event_status
    if (escan_result_process cfg event len).reaches_processed = false then
      -- exit_invalid_frame
      (priv, [])
    else if status = cfg.WLC_E_STATUS_PARTIAL then
      -- More frames to come
      (priv, [])
    else if status ≠ cfg.WLC_E_STATUS_SUCCESS then
      -- Invalid event status
      (priv, [])
    else
      -- Scan done
      let wdog := wd_cancel priv.scan_timeout
      match priv.scan_params with
      | none =>
        -- Scan has already timedout
        ({ priv with scan_timeout := wdog }, [Effect.wd_cancel])
      | some p =>
        ({ priv with
            scan_timeout := wdog
            scan_params := none
            scan_status := BCMF_SCAN_DONE
            control_mutex := sem_post priv.control_mutex },
         [Effect.wd_cancel, Effect.free (some p), Effect.sem_post_control_mutex])

/-! ## `bcmf_wl_start_scan` -/

/-- What the environment answers to the calls of one `bcmf_wl_start_scan`. -/
structure ScanEnv where
  /-- return value of `bcmf_cdc_ioctl(WLC_SET_PASSIVE_SCAN)` -/
  ioctl_ret : Int
  /-- whether a blocked wait on `control_mutex` is interrupted -/
  sem_wait_interrupted : Bool
  /-- whether `kmm_malloc` returns a buffer -/
  malloc_ok : Bool
  /-- return value of `bcmf_cdc_iovar_request_unsafe(IOVAR_STR_ESCAN)` -/
  iovar_ret : Int
  deriving DecidableEq, Repr

/-- How a call of `bcmf_wl_start_scan` ends: it returns a value, or it stays blocked
in `sem_wait`.  Both carry the device and the calls made so far. -/
inductive Outcome where
  | returned (ret : Int) (priv : bcmf_dev_s) (calls : List Effect)
  | blocked (priv : bcmf_dev_s) (calls : List Effect)
  deriving DecidableEq, Repr

/-- The device a call of `bcmf_wl_start_scan` leaves behind. -/
def Outcome.priv : Outcome → bcmf_dev_s
  | Outcome.returned _ priv _ => priv
  | Outcome.blocked priv _ => priv

/-- The default request structure `bcmf_wl_start_scan` builds in the new buffer. -/
def default_scan_request (cfg : Config) : wl_escan_params :=
  { version := cfg.ESCAN_REQ_VERSION
    action := cfg.WL_SCAN_ACTION_START
    sync_id := 0xabcd
    params :=
      { bssid := [0xFF, 0xFF, 0xFF, 0xFF, 0xFF, 0xFF]
        bss_type := DOT11_BSSTYPE_ANY
        scan_type := 0
        nprobes := -1
        active_time := -1
        passive_time := -1
        home_time := -1
        channel_num := 0 } }

/-- The function `bcmf_wl_start_scan`. -/
def bcmf_wl_start_scan (cfg : Config) (env : ScanEnv) (priv : bcmf_dev_s) : Outcome :=
  -- Set active scan mode
  if env.ioctl_ret ≠ 0 then
    Outcome.returned (-EIO_errno) priv [Effect.bcmf_cdc_ioctl IoctlCmd.WLC_SET_PASSIVE_SCAN]
  else
    -- Lock control_mutex semaphore
    match sem_wait priv.control_mutex env.sem_wait_interrupted with
    | none =>
      Outcome.blocked priv
        [Effect.bcmf_cdc_ioctl IoctlCmd.WLC_SET_PASSIVE_SCAN, Effect.sem_wait_control_mutex]
    | some (ret, count) =>
      if ret ≠ OK then
        Outcome.returned ret { priv with control_mutex := count }
          [Effect.bcmf_cdc_ioctl IoctlCmd.WLC_SET_PASSIVE_SCAN, Effect.sem_wait_control_mutex]
      else if env.malloc_ok = false then
        -- exit_sem_post
        Outcome.returned (-ENOMEM)
          { priv with
              scan_params := none
              control_mutex := sem_post count
              scan_status := BCMF_SCAN_DISABLED }
          [Effect.bcmf_cdc_ioctl IoctlCmd.WLC_SET_PASSIVE_SCAN, Effect.sem_wait_control_mutex,
           Effect.kmm_malloc, Effect.sem_post_control_mutex]
      else if env.iovar_ret ≠ 0 then
        -- exit_free_params
        Outcome.returned (-EIO_errno)
          { priv with
              scan_params := none
              control_mutex := sem_post count
              scan_status := BCMF_SCAN_DISABLED }
          [Effect.bcmf_cdc_ioctl IoctlCmd.WLC_SET_PASSIVE_SCAN, Effect.sem_wait_control_mutex,
           Effect.kmm_malloc, Effect.bcmf_cdc_iovar_request IovarName.IOVAR_STR_ESCAN,
           Effect.free (some (default_scan_request cfg)), Effect.sem_post_control_mutex]
      else
        -- Start scan_timeout timer
        Outcome.returned OK
          { priv with
              scan_params := some (default_scan_request cfg)
              scan_status := BCMF_SCAN_RUN
              control_mutex := count
              scan_timeout :=
                wd_start priv.scan_timeout (BCMF_SCAN_TIMEOUT_TICK cfg)
                  wdentry.bcmf_wl_scan_timeout }
          [Effect.bcmf_cdc_ioctl IoctlCmd.WLC_SET_PASSIVE_SCAN, Effect.sem_wait_control_mutex,
           Effect.kmm_malloc, Effect.bcmf_cdc_iovar_request IovarName.IOVAR_STR_ESCAN,
           Effect.wd_start (BCMF_SCAN_TIMEOUT_TICK cfg) wdentry.bcmf_wl_scan_timeout]

/-! ## `bcmf_allocate_device` -/

/-- Modelled from the spec: `sem_init` of the OS is not among the sources; it gives the
semaphore the initial count asked for. -/
def sem_init (value : Int) : Int := value

/-- Modelled from the spec: `wd_create` of the OS is not among the sources; a new
watchdog is idle. -/
def wd_create : Wdog := Wdog.idle

/-- What the environment answers to the calls of one `bcmf_allocate_device`. -/
structure AllocEnv where
  /-- whether `kmm_malloc` returns the device structure -/
  kmm_malloc_ok : Bool
  /-- return value of `sem_init(&priv->control_mutex, 0, 1)` -/
  sem_init_control_mutex : Int
  /-- return value of `sem_init(&priv->control_timeout, 0, 0)` -/
  sem_init_control_timeout : Int
  /-- return value of `sem_setprotocol(&priv->control_timeout, SEM_PRIO_NONE)` -/
  sem_setprotocol_control_timeout : Int
  /-- return value of `sem_init(&priv->auth_signal, 0, 0)` -/
  sem_init_auth_signal : Int
  /-- return value of `sem_setprotocol(&priv->auth_signal, SEM_PRIO_NONE)` -/
  sem_setprotocol_auth_signal : Int
  /-- whether `wd_create` returns a watchdog -/
  wd_create_ok : Bool
  deriving DecidableEq, Repr

/-- The function `bcmf_allocate_device`: `none` is the `NULL` result. -/
def bcmf_allocate_device (env : AllocEnv) : Option bcmf_dev_s :=
  -- Allocate a bcmf device structure
  if env.kmm_malloc_ok = false then
    none
  else
    -- Initialize bcmf device structure: memset(priv, 0, sizeof(*priv))
    let priv : bcmf_dev_s :=
      { control_mutex := 0
        control_timeout := 0
        auth_signal := 0
        scan_status := 0
        scan_timeout := Wdog.idle
        scan_params := none
        auth_status := 0 }
    -- Init control frames mutex and timeout signal
    if env.sem_init_control_mutex ≠ OK then
      none
    else
      let priv := { priv with control_mutex := sem_init 1 }
      if env.sem_init_control_timeout ≠ OK then
        none
      else
        let priv := { priv with control_timeout := sem_init 0 }
        if env.sem_setprotocol_control_timeout ≠ OK then
          none
        else
          -- Init authentication signal semaphore
          if env.sem_init_auth_signal ≠ OK then
            none
          else
            let priv := { priv with auth_signal := sem_init 0 }
            if env.sem_setprotocol_auth_signal ≠ OK then
              none
            else
              -- Init scan timeout timer
              let priv := { priv with scan_status := BCMF_SCAN_DISABLED }
              if env.wd_create_ok = false then
                none
              else
                some { priv with scan_timeout := wd_create }

/-! ## Sequences of completion events of a scan -/

/-- What can reach the device between a start of a scan and its completion: a result
event handed to `bcmf_wl_scan_event_handler`, a call of the timeout entry
`bcmf_wl_scan_timeout` whatever the state of the timer, or an expiry of the timer as
the OS delivers it. -/
inductive CompletionOp where
  | scan_event (event : Nat → Nat) (len : Nat)
  | scan_timeout
  | wd_expiry

/-- Modelled from the spec: the watchdog of the OS is not among the sources; it is a
one-shot timer, so an expiry happens only while the timer is armed, leaves the timer
idle and calls the entry it was armed with; an idle (never armed, cancelled or
already fired) timer delivers nothing. -/
def wd_expiry (priv : bcmf_dev_s) : bcmf_dev_s × List Effect :=
  match priv.scan_timeout with
  | Wdog.idle => (priv, [])
  | Wdog.active _ wdentry.bcmf_wl_scan_timeout =>
    bcmf_wl_scan_timeout { priv with scan_timeout := Wdog.idle }

/-- One completion event applied to the device. -/
def completion_step (cfg : Config) (priv : bcmf_dev_s) :
    CompletionOp → bcmf_dev_s × List Effect
  | CompletionOp.scan_event event len => bcmf_wl_scan_event_handler cfg priv event len
  | CompletionOp.scan_timeout => bcmf_wl_scan_timeout priv
  | CompletionOp.wd_expiry => wd_expiry priv

/-- A sequence of completion events applied in order; the calls are collected in
order. -/
def completion_run (cfg : Config) : bcmf_dev_s → List CompletionOp → bcmf_dev_s × List Effect
  | priv, [] => (priv, [])
  | priv, op :: ops =>
    ((completion_run cfg (completion_step cfg priv op).1 ops).1,
     (completion_step cfg priv op).2 ++ (completion_run cfg (completion_step cfg priv op).1 ops).2)

/-- The states the scan operations can bring a freshly constructed device to: each
step is a completed call of `bcmf_wl_start_scan` (whatever the transport and the
allocator answer), of `bcmf_wl_scan_event_handler` (any frame), of
`bcmf_wl_scan_timeout` or of `bcmf_wl_is_scan_done`. -/
inductive Reachable (cfg : Config) : bcmf_dev_s → Prop where
  | fresh (env : AllocEnv) (priv : bcmf_dev_s) :
      bcmf_allocate_device env = some priv → Reachable cfg priv
  | start_scan (env : ScanEnv) (priv : bcmf_dev_s) (ret : Int) (priv' : bcmf_dev_s)
      (calls : List Effect) :
      Reachable cfg priv →
      bcmf_wl_start_scan cfg env priv = Outcome.returned ret priv' calls →
      Reachable cfg priv'
  | scan_event (priv : bcmf_dev_s) (event : Nat → Nat) (len : Nat) :
      Reachable cfg priv → Reachable cfg (bcmf_wl_scan_event_handler cfg priv event len).1
  | scan_timeout (priv : bcmf_dev_s) :
      Reachable cfg priv → Reachable cfg (bcmf_wl_scan_timeout priv).1
  | is_scan_done (priv : bcmf_dev_s) :
      Reachable cfg priv → Reachable cfg (bcmf_wl_is_scan_done priv).2

/-! ## Association and authentication -/

/-- Modelled from the spec: `errno.h` is not among the sources; the "not implemented"
error number of NuttX. -/
def ENOSYS : Int := 38

/-- Modelled from the spec: the headers that declare the wireless-extension and
firmware security constants (`nuttx/wireless/wireless.h`, `bcmf_ioctl.h`,
`bcmf_sdio.h`) are not among the sources, so the constants are parameters. -/
structure WextConfig where
  CHIP_STA_INTERFACE : Int
  IW_AUTH_INDEX : Nat
  IW_AUTH_WPA_VERSION : Nat
  IW_AUTH_CIPHER_PAIRWISE : Nat
  IW_AUTH_CIPHER_GROUP : Nat
  IW_AUTH_WPA_VERSION_DISABLED : Int
  IW_AUTH_WPA_VERSION_WPA : Int
  IW_AUTH_WPA_VERSION_WPA2 : Int
  IW_AUTH_CIPHER_WEP40 : Int
  IW_AUTH_CIPHER_WEP104 : Int
  IW_AUTH_CIPHER_TKIP : Int
  IW_AUTH_CIPHER_CCMP : Int
  WPA_AUTH_DISABLED : Nat
  WPA_AUTH_PSK : Nat
  WPA2_AUTH_PSK : Nat
  WEP_ENABLED : Nat
  TKIP_ENABLED : Nat
  AES_ENABLED : Nat
  IW_MODE_INFRA : Nat
  IW_ENCODE_ALG_TKIP : Nat
  IW_ENCODE_ALG_CCMP : Nat
  WSEC_PASSPHRASE : Nat
  deriving DecidableEq, Repr

/-- Modelled from the spec: the declaration of `struct iw_encode_ext` is not among the
sources; the members `bcmf_wl_set_encode_ext` reads. -/
structure iw_encode_ext where
  alg : Nat
  key : List Nat
  key_len : Nat
  deriving DecidableEq, Repr

/-- Modelled from the spec: the declaration of `struct iwreq` is not among the sources;
the members of its union `u` the driver reads: `u.param.flags`, `u.param.value`,
`u.mode`, the structure behind `u.encoding.pointer`, and the bytes behind
`u.essid.pointer` with `u.essid.length`. -/
structure iwreq where
  param_flags : Nat
  param_value : Int
  mode : Nat
  encoding_ext : iw_encode_ext
  essid : List Nat
  essid_length : Nat
  deriving DecidableEq, Repr

/-- The event handler `bcmf_wl_auth_event_handler`. -/
def bcmf_wl_auth_event_handler (cfg : Config) (priv : bcmf_dev_s)
    (event : Nat → Nat) (_len : Nat) : bcmf_dev_s × List Effect :=
  let type := bcmf_getle32 event cfg.off_event_type
  let status := bcmf_getle32 event cfg.off_event_status
  if type = cfg.WLC_E_SET_SSID ∧ status = cfg.WLC_E_STATUS_SUCCESS then
    -- Auth complete
    ({ priv with
        auth_status := OK
        auth_signal := sem_post priv.auth_signal },
     [Effect.sem_post_auth_signal])
  else
    (priv, [])

/-- The function `bcmf_wl_get_interface`. -/
def bcmf_wl_get_interface (wc : WextConfig) (_iwr : iwreq) : Int :=
  wc.CHIP_STA_INTERFACE

/-- The inner `switch (iwr->u.param.value)` of the case `IW_AUTH_WPA_VERSION`: the
pair (`wpa_version[1]`, `auth_mode`), or `none` for the `default` label. -/
def wpa_version_switch (wc : WextConfig) (value : Int) : Option (Nat × Nat) :=
  if value = wc.IW_AUTH_WPA_VERSION_DISABLED then some (0, wc.WPA_AUTH_DISABLED)
  else if value = wc.IW_AUTH_WPA_VERSION_WPA then some (1, wc.WPA_AUTH_PSK)
  else if value = wc.IW_AUTH_WPA_VERSION_WPA2 then some (1, wc.WPA2_AUTH_PSK)
  else none

/-- The inner `switch (iwr->u.param.value)` of the cases `IW_AUTH_CIPHER_PAIRWISE` and
`IW_AUTH_CIPHER_GROUP`: the pair (`cipher_mode`, `wep_auth`), or `none` for the
`default` label. -/
def cipher_switch (wc : WextConfig) (value : Int) : Option (Nat × Nat) :=
  if value = wc.IW_AUTH_CIPHER_WEP40 ∨ value = wc.IW_AUTH_CIPHER_WEP104 then
    some (wc.WEP_ENABLED, 1)
  else if value = wc.IW_AUTH_CIPHER_TKIP then some (wc.TKIP_ENABLED, 0)
  else if value = wc.IW_AUTH_CIPHER_CCMP then some (wc.AES_ENABLED, 0)
  else none

/-- The function `bcmf_wl_set_auth_param`: return value and transport calls.  `io k`
is the return value of the transport call number `k` (from 0) of this operation. -/
def bcmf_wl_set_auth_param (wc : WextConfig) (io : Nat → Int) (iwr : iwreq) :
    Int × List Effect :=
  let interface := bcmf_wl_get_interface wc iwr
  if interface < 0 then
    (-EINVAL, [])
  else
    let index := Nat.land iwr.param_flags wc.IW_AUTH_INDEX
    if index = wc.IW_AUTH_WPA_VERSION then
      match wpa_version_switch wc iwr.param_value with
      | none =>
        -- Invalid wpa version
        (-EINVAL, [])
      | some (sup_wpa, auth_mode) =>
        if io 0 ≠ 0 then
          (-EIO_errno,
           [Effect.bcmf_cdc_iovar_request (IovarName.bsscfg_IOVAR_STR_SUP_WPA interface sup_wpa)])
        else if io 1 ≠ 0 then
          (-EIO_errno,
           [Effect.bcmf_cdc_iovar_request (IovarName.bsscfg_IOVAR_STR_SUP_WPA interface sup_wpa),
            Effect.bcmf_cdc_ioctl (IoctlCmd.WLC_SET_WPA_AUTH auth_mode)])
        else
          (OK,
           [Effect.bcmf_cdc_iovar_request (IovarName.bsscfg_IOVAR_STR_SUP_WPA interface sup_wpa),
            Effect.bcmf_cdc_ioctl (IoctlCmd.WLC_SET_WPA_AUTH auth_mode)])
    else if index = wc.IW_AUTH_CIPHER_PAIRWISE ∨ index = wc.IW_AUTH_CIPHER_GROUP then
      match cipher_switch wc iwr.param_value with
      | none =>
        -- Invalid cipher mode
        (-EINVAL, [])
      | some (cipher_mode, wep_auth) =>
        if io 0 ≠ 0 then
          (-EIO_errno, [Effect.bcmf_cdc_ioctl (IoctlCmd.WLC_SET_WSEC cipher_mode)])
        else if io 1 ≠ 0 then
          -- Set authentication mode
          (-EIO_errno,
           [Effect.bcmf_cdc_ioctl (IoctlCmd.WLC_SET_WSEC cipher_mode),
            Effect.bcmf_cdc_ioctl (IoctlCmd.WLC_SET_AUTH wep_auth)])
        else
          (OK,
           [Effect.bcmf_cdc_ioctl (IoctlCmd.WLC_SET_WSEC cipher_mode),
            Effect.bcmf_cdc_ioctl (IoctlCmd.WLC_SET_AUTH wep_auth)])
    else
      -- Unknown cmd
      (-ENOSYS, [])

/-- The function `bcmf_wl_set_mode`: return value and transport calls. -/
def bcmf_wl_set_mode (wc : WextConfig) (io : Nat → Int) (iwr : iwreq) : Int × List Effect :=
  let interface := bcmf_wl_get_interface wc iwr
  if interface < 0 then
    (-EINVAL, [])
  else
    let value := if iwr.mode = wc.IW_MODE_INFRA then 1 else 0
    if io 0 ≠ 0 then
      (-EIO_errno, [Effect.bcmf_cdc_ioctl (IoctlCmd.WLC_SET_INFRA value)])
    else
      (OK, [Effect.bcmf_cdc_ioctl (IoctlCmd.WLC_SET_INFRA value)])

/-- The function `bcmf_wl_set_encode_ext`: return value and transport calls. -/
def bcmf_wl_set_encode_ext (wc : WextConfig) (io : Nat → Int) (iwr : iwreq) :
    Int × List Effect :=
  let interface := bcmf_wl_get_interface wc iwr
  if interface < 0 then
    (-EINVAL, [])
  else
    let ext := iwr.encoding_ext
    if ext.alg = wc.IW_ENCODE_ALG_TKIP ∨ ext.alg = wc.IW_ENCODE_ALG_CCMP then
      (io 0,
       [Effect.bcmf_cdc_ioctl
          (IoctlCmd.WLC_SET_WSEC_PMK (ext.key.take ext.key_len) ext.key_len wc.WSEC_PASSPHRASE)])
    else
      -- Unknown algo
      (-EINVAL, [])

/-- Modelled from the spec: `bcmf_sem_wait` (`bcmf_utils.c`) is not among the sources;
it is a bounded wait on a countable signal, here on `auth_signal`.  A signal that is
already posted is taken at once (`OK`, count minus one).  Otherwise the caller stays
blocked while the event context hands the frames of `events`, in order, to
`bcmf_wl_auth_event_handler`, until one of them posts the signal; when none does the
wait times out with `ERROR`. -/
def bcmf_sem_wait (cfg : Config) :
    List ((Nat → Nat) × Nat) → bcmf_dev_s → Int × bcmf_dev_s × List Effect
  | [], priv =>
    if 0 < priv.auth_signal then
      (OK, { priv with auth_signal := priv.auth_signal - 1 },
       [Effect.bcmf_sem_wait_auth_signal OK])
    else
      (ERROR, priv, [Effect.bcmf_sem_wait_auth_signal ERROR])
  | e :: rest, priv =>
    if 0 < priv.auth_signal then
      (OK, { priv with auth_signal := priv.auth_signal - 1 },
       [Effect.bcmf_sem_wait_auth_signal OK])
    else
      ((bcmf_sem_wait cfg rest (bcmf_wl_auth_event_handler cfg priv e.1 e.2).1).1,
       (bcmf_sem_wait cfg rest (bcmf_wl_auth_event_handler cfg priv e.1 e.2).1).2.1,
       (bcmf_wl_auth_event_handler cfg priv e.1 e.2).2
         ++ (bcmf_sem_wait cfg rest (bcmf_wl_auth_event_handler cfg priv e.1 e.2).1).2.2)

/-- What the environment does during one `bcmf_wl_set_ssid`. -/
structure SsidEnv where
  /-- return value of `bcmf_cdc_ioctl(WLC_SET_SSID)` -/
  ioctl_ret : Int
  /-- frames (with their lengths) handed to the auth event handler during the wait -/
  wait_events : List ((Nat → Nat) × Nat)

/-- The function `bcmf_wl_set_ssid`: return value, device and calls. -/
def bcmf_wl_set_ssid (cfg : Config) (wc : WextConfig) (env : SsidEnv) (priv : bcmf_dev_s)
    (iwr : iwreq) : Int × bcmf_dev_s × List Effect :=
  let interface := bcmf_wl_get_interface wc iwr
  if interface < 0 then
    (-EINVAL, priv, [])
  else
    -- Configure AP SSID and trig authentication request
    let set_ssid :=
      Effect.bcmf_cdc_ioctl
        (IoctlCmd.WLC_SET_SSID (iwr.essid.take iwr.essid_length) iwr.essid_length)
    if env.ioctl_ret ≠ 0 then
      (-EIO_errno, priv, [set_ssid])
    else
      let wait := bcmf_sem_wait cfg env.wait_events priv
      let ret := wait.1
      let calls := set_ssid :: wait.2.2
      if ret ≠ 0 then
        -- Associate request timeout
        (-EINVAL, wait.2.1, calls)
      else if wait.2.1.auth_status = OK then
        -- AP Join ok
        (OK, wait.2.1, calls)
      else
        -- AP join failed
        (-EINVAL, wait.2.1, calls)

/-- What can reach the device in the association workflow: an event handed to
`bcmf_wl_auth_event_handler`, or a call of `bcmf_wl_set_ssid`. -/
inductive AuthOp where
  | auth_event (event : Nat → Nat) (len : Nat)
  | set_ssid (env : SsidEnv) (iwr : iwreq)

/-- One step of the association workflow applied to the device. -/
def auth_step (cfg : Config) (wc : WextConfig) (priv : bcmf_dev_s) :
    AuthOp → bcmf_dev_s × List Effect
  | AuthOp.auth_event event len => bcmf_wl_auth_event_handler cfg priv event len
  | AuthOp.set_ssid env iwr =>
    ((bcmf_wl_set_ssid cfg wc env priv iwr).2.1, (bcmf_wl_set_ssid cfg wc env priv iwr).2.2)

/-- A sequence of steps of the association workflow applied in order; the calls are
collected in order. -/
def auth_run (cfg : Config) (wc : WextConfig) :
    bcmf_dev_s → List AuthOp → bcmf_dev_s × List Effect
  | priv, [] => (priv, [])
  | priv, op :: ops =>
    ((auth_run cfg wc (auth_step cfg wc priv op).1 ops).1,
     (auth_step cfg wc priv op).2 ++ (auth_run cfg wc (auth_step cfg wc priv op).1 ops).2)

/-! ## The record loop, iteration by iteration -/

/-- The number of records a walk has gone past when it ends. -/
def BssWalk.bss_count : BssWalk → Nat
  | BssWalk.processed _ bss_count => bss_count
  | BssWalk.bss_len_error _ _ bss_count => bss_count

/-- The loop `while (len > 0 && bss_count < result->bss_count)` as the source writes
it, with the counter `bss_count` compared to `result->bss_count` (`total`) in the
loop condition, run for at most `fuel` evaluations of the condition; `none` when they
run out before the loop is left. -/
def bss_loop_iter (cfg : Config) (mem : Nat → Nat) (total : Nat) :
    Nat → Nat → Nat → Nat → Option BssWalk
  | 0, _, _, _ => none
  | fuel + 1, len, bss, bss_count =>
    if 0 < len ∧ bss_count < total then
      let bss_info_len := read_u32 mem (bss + cfg.off_bss_length)
      if len < bss_info_len then
        some (BssWalk.bss_len_error len bss_info_len bss_count)
      else
        -- Process next bss_info
        bss_loop_iter cfg mem total fuel (len - bss_info_len) (bss + bss_info_len)
          (bss_count + 1)
    else
      some (BssWalk.processed len bss_count)

/-! ## The count of `auth_signal`, read from the events alone -/

/-- Spec-side reading of an event frame: it is an association-complete event when its
type is `WLC_E_SET_SSID` and its status is success. -/
def spec_assoc_complete (cfg : Config) (event : Nat → Nat) : Bool :=
  decide (bcmf_getle32 event cfg.off_event_type = cfg.WLC_E_SET_SSID ∧
    bcmf_getle32 event cfg.off_event_status = cfg.WLC_E_STATUS_SUCCESS)

/-- Spec-side reading of one step of the association workflow: from the count `c` of
`auth_signal` before the step (not negative), the count after it and the number of
posts made during it.  An association-complete event posts once, any other event
posts nothing.  A `bcmf_wl_set_ssid` that reaches its wait takes a post that is
already there; with none there, the first association-complete event that arrives
during the wait posts once and the wait takes that post. -/
def spec_auth_step (cfg : Config) (wc : WextConfig) (c : Int) : AuthOp → Int × Nat
  | AuthOp.auth_event event _ =>
    if spec_assoc_complete cfg event then (c + 1, 1) else (c, 0)
  | AuthOp.set_ssid env _ =>
    if wc.CHIP_STA_INTERFACE < 0 ∨ env.ioctl_ret ≠ 0 then (c, 0)
    else if 0 < c then (c - 1, 0)
    else if env.wait_events.any (fun e => spec_assoc_complete cfg e.1) then (c, 1)
    else (c, 0)

/-- Spec-side reading of a sequence of steps: the count of `auth_signal` at the end
and the number of posts made. -/
def spec_auth_run (cfg : Config) (wc : WextConfig) : Int → List AuthOp → Int × Nat
  | c, [] => (c, 0)
  | c, op :: ops =>
    ((spec_auth_run cfg wc (spec_auth_step cfg wc c op).1 ops).1,
     (spec_auth_step cfg wc c op).2 + (spec_auth_run cfg wc (spec_auth_step cfg wc c op).1 ops).2)

/-! ## The states of the whole driver -/

/-- The states the operations of the driver can bring a freshly constructed device
to: each step is a call of `bcmf_wl_start_scan` (returned or blocked),
`bcmf_wl_scan_event_handler`, `bcmf_wl_scan_timeout`, `bcmf_wl_is_scan_done`,
`bcmf_wl_auth_event_handler` or `bcmf_wl_set_ssid`, with any frame and any answer of
the environment.  The other operations (`bcmf_wl_enable`, `bcmf_wl_set_auth_param`,
`bcmf_wl_set_mode`, `bcmf_wl_set_encode_ext`) write none of the members of the
device modelled here. -/
inductive DriverReachable (cfg : Config) (wc : WextConfig) : bcmf_dev_s → Prop where
  | fresh (env : AllocEnv) (priv : bcmf_dev_s) :
      bcmf_allocate_device env = some priv → DriverReachable cfg wc priv
  | start_scan (env : ScanEnv) (priv : bcmf_dev_s) :
      DriverReachable cfg wc priv →
      DriverReachable cfg wc (bcmf_wl_start_scan cfg env priv).priv
  | scan_event (priv : bcmf_dev_s) (event : Nat → Nat) (len : Nat) :
      DriverReachable cfg wc priv →
      DriverReachable cfg wc (bcmf_wl_scan_event_handler cfg priv event len).1
  | scan_timeout (priv : bcmf_dev_s) :
      DriverReachable cfg wc priv → DriverReachable cfg wc (bcmf_wl_scan_timeout priv).1
  | is_scan_done (priv : bcmf_dev_s) :
      DriverReachable cfg wc priv → DriverReachable cfg wc (bcmf_wl_is_scan_done priv).2
  | auth_event (priv : bcmf_dev_s) (event : Nat → Nat) (len : Nat) :
      DriverReachable cfg wc priv →
      DriverReachable cfg wc (bcmf_wl_auth_event_handler cfg priv event len).1
  | set_ssid (env : SsidEnv) (iwr : iwreq) (priv : bcmf_dev_s) :
      DriverReachable cfg wc priv →
      DriverReachable cfg wc (bcmf_wl_set_ssid cfg wc env priv iwr).2.1

/-! ## The envelope reads of the event handler -/

/-- The member reads the loop over the records makes, each as (offset of the first
byte in the frame, width in bytes), in order: `result->bss_count` (at `count_off`)
in every evaluation of the loop condition that gets past `len > 0`, and `bss->length`
in every iteration.  The first argument is `result->bss_count - bss_count`. -/
def bss_loop_reads (cfg : Config) (mem : Nat → Nat) (count_off : Nat) :
    Nat → Nat → Nat → List (Nat × Nat)
  | 0, len, _ => if 0 < len then [(count_off, 2)] else []
  | todo + 1, len, bss =>
    if 0 < len then
      let bss_info_len := read_u32 mem (bss + cfg.off_bss_length)
      (count_off, 2) :: (bss + cfg.off_bss_length, 4) ::
        (if len < bss_info_len then []
         else bss_loop_reads cfg mem count_off todo (len - bss_info_len) (bss + bss_info_len))
    else
      []

/-- The reads of the result envelope `bcmf_wl_scan_event_handler` makes for a frame:
`result->buflen`, then the reads of the loop.  (The handler has read the members
`status`, `reason` and `len` of the event header before.) -/
def escan_reads (cfg : Config) (priv : bcmf_dev_s) (event : Nat → Nat) (len : Nat) :
    List (Nat × Nat) :=
  if priv.scan_status < BCMF_SCAN_RUN then
    []
  else
    let len := escan_payload_len cfg event len
    if len = u32 ((cfg.sizeof_wl_escan_result : Int) - (cfg.sizeof_wl_bss_info : Int)) then
      []
    else if len < cfg.sizeof_wl_escan_result then
      []
    else
      let result := cfg.sizeof_bcmf_event_s
      let buflen := read_u32 event (result + cfg.off_result_buflen)
      (result + cfg.off_result_buflen, 4) ::
        (if len < buflen ∨ buflen < cfg.sizeof_wl_escan_result then []
         else
           bss_loop_reads cfg event (result + cfg.off_result_bss_count)
             (read_u16 event (result + cfg.off_result_bss_count))
             (escan_records_len cfg event) (result + cfg.off_result_bss_info))

/-! ## `icmp_send` (`net/icmp/icmp_send.c`, IPv4 build) -/

/-- Modelled from the spec: the network headers (`nuttx/net/ip.h`,
`nuttx/net/netconfig.h`, `icmp/icmp.h`) are not among the sources, so their constants
and the statistics switch are parameters. -/
structure IcmpConfig where
  UIP_IPICMPH_LEN : Nat
  UIP_ICMPH_LEN : Nat
  UIP_TCPFLAG_DONTFRAG : Nat
  UIP_TTL : Nat
  IP_PROTO_ICMP : Nat
  CONFIG_NET_STATISTICS : Bool
  deriving DecidableEq, Repr

/-- Modelled from the spec: the declaration of `struct icmp_iphdr_s` is not among the
sources; the members of the IPv4 header `icmp_send` writes and the ICMP checksum,
`len`, `ipid` and `ipoffset` as pairs of bytes, the checksums as 16-bit values. -/
structure icmp_iphdr_s where
  vhl : Nat
  tos : Nat
  len : Nat × Nat
  ipid : Nat × Nat
  ipoffset : Nat × Nat
  ttl : Nat
  proto : Nat
  ipchksum : Nat
  srcipaddr : Nat
  destipaddr : Nat
  icmpchksum : Nat
  deriving DecidableEq, Repr

/-- Modelled from the spec: the declaration of `struct net_driver_s` is not among the
sources; the members `icmp_send` uses, with the header at `ICMPBUF` and the data
after it. -/
structure net_driver_s where
  d_len : Nat
  d_sndlen : Nat
  d_ipaddr : Nat
  d_buf : icmp_iphdr_s
  d_appdata : List Nat
  deriving DecidableEq, Repr

/-- A configuration with the layout of the Broadcom structures: a 48-byte event
header (`type` at 4, `status` at 8, `reason` at 12, `len` at 20), a 12-byte escan result header
followed by one 128-byte `wl_bss_info` (`length` at 4), 100 ticks per second. -/
def sampleConfig : Config :=
  { CLOCKS_PER_SEC := 100
    WLC_E_STATUS_SUCCESS := 0
    WLC_E_STATUS_PARTIAL := 8
    ESCAN_REQ_VERSION := 1
    WL_SCAN_ACTION_START := 1
    sizeof_bcmf_event_s := 48
    off_event_status := 8
    off_event_reason := 12
    off_event_len := 20
    sizeof_wl_escan_result := 140
    off_result_buflen := 0
    off_result_bss_count := 10
    off_result_bss_info := 12
    sizeof_wl_bss_info := 128
    off_bss_length := 4
    off_event_type := 4
    WLC_E_SET_SSID := 0 }

/-- A frame of 60 bytes: event header with the given status byte and `len = 12`,
followed by an escan result header without any network descriptor. -/
def emptyResultFrame (status : Nat) : Nat → Nat :=
  fun off => if off = 8 then status else if off = 20 then 12 else 0

/-- A device whose scan has completed: status done, no request buffer, gate
released, timer idle. -/
def doneDev : bcmf_dev_s :=
  { control_mutex := 1
    control_timeout := 0
    auth_signal := 0
    scan_status := BCMF_SCAN_DONE
    scan_timeout := Wdog.idle
    scan_params := none
    auth_status := 0 }

/-- A device with a scan in flight: status running, request buffer pending, gate
held, timer armed. -/
def runningDev : bcmf_dev_s :=
  { control_mutex := 0
    control_timeout := 0
    auth_signal := 0
    scan_status := BCMF_SCAN_RUN
    scan_timeout := Wdog.active (BCMF_SCAN_TIMEOUT_TICK sampleConfig) wdentry.bcmf_wl_scan_timeout
    scan_params := some (default_scan_request sampleConfig)
    auth_status := 0 }

/-- A device that was never started: status disabled, gate free. -/
def disabledDev : bcmf_dev_s :=
  { control_mutex := 1
    control_timeout := 0
    auth_signal := 0
    scan_status := BCMF_SCAN_DISABLED
    scan_timeout := Wdog.idle
    scan_params := none
    auth_status := 0 }

/-- A device in the state `bcmf_wl_start_scan` passes through between its `kmm_malloc`
and its assignment `scan_status = BCMF_SCAN_RUN` after an earlier scan has completed:
status still done, new request buffer pending, gate held, timer idle. -/
def doneDevPending : bcmf_dev_s :=
  { control_mutex := 0
    control_timeout := 0
    auth_signal := 0
    scan_status := BCMF_SCAN_DONE
    scan_timeout := Wdog.idle
    scan_params := some (default_scan_request sampleConfig)
    auth_status := 0 }

/-- Environment in which every call of `bcmf_wl_start_scan` succeeds. -/
def envAllOk : ScanEnv :=
  { ioctl_ret := 0, sem_wait_interrupted := false, malloc_ok := true, iovar_ret := 0 }

/-- Environment in which only the escan iovar request fails. -/
def envIovarFails : ScanEnv :=
  { ioctl_ret := 0, sem_wait_interrupted := false, malloc_ok := true, iovar_ret := -5 }

/-- Environment in which every call of `bcmf_allocate_device` succeeds. -/
def allocAllOk : AllocEnv :=
  { kmm_malloc_ok := true
    sem_init_control_mutex := 0
    sem_init_control_timeout := 0
    sem_setprotocol_control_timeout := 0
    sem_init_auth_signal := 0
    sem_setprotocol_auth_signal := 0
    wd_create_ok := true }

/-- The wireless-extension and firmware constants with the values of the NuttX and
Broadcom headers. -/
def sampleWext : WextConfig :=
  { CHIP_STA_INTERFACE := 0
    IW_AUTH_INDEX := 0x0FFF
    IW_AUTH_WPA_VERSION := 0
    IW_AUTH_CIPHER_PAIRWISE := 1
    IW_AUTH_CIPHER_GROUP := 2
    IW_AUTH_WPA_VERSION_DISABLED := 1
    IW_AUTH_WPA_VERSION_WPA := 2
    IW_AUTH_WPA_VERSION_WPA2 := 4
    IW_AUTH_CIPHER_WEP40 := 2
    IW_AUTH_CIPHER_WEP104 := 16
    IW_AUTH_CIPHER_TKIP := 4
    IW_AUTH_CIPHER_CCMP := 8
    WPA_AUTH_DISABLED := 0
    WPA_AUTH_PSK := 4
    WPA2_AUTH_PSK := 128
    WEP_ENABLED := 1
    TKIP_ENABLED := 2
    AES_ENABLED := 4
    IW_MODE_INFRA := 2
    IW_ENCODE_ALG_TKIP := 2
    IW_ENCODE_ALG_CCMP := 3
    WSEC_PASSPHRASE := 1 }

/-- A request: `param_flags` and `param_value` for `bcmf_wl_set_auth_param`, key
algorithm `alg` for `bcmf_wl_set_encode_ext`, an 8-byte key and a 4-byte SSID. -/
def sampleReq (param_flags : Nat) (param_value : Int) (alg : Nat) : iwreq :=
  { param_flags := param_flags
    param_value := param_value
    mode := 2
    encoding_ext := { alg := alg, key := [1, 2, 3, 4, 5, 6, 7, 8], key_len := 8 }
    essid := [104, 111, 109, 101]
    essid_length := 4 }

/-- An event frame with the given type and status bytes. -/
def authFrame (type status : Nat) : Nat → Nat :=
  fun off => if off = 4 then type else if off = 8 then status else 0

/-- A device with a posted `auth_signal` and the given `auth_status`. -/
def authPostedDev (auth_status : Int) : bcmf_dev_s :=
  { control_mutex := 1
    control_timeout := 0
    auth_signal := 1
    scan_status := BCMF_SCAN_DISABLED
    scan_timeout := Wdog.idle
    scan_params := none
    auth_status := auth_status }

/-- Environment of `bcmf_wl_set_ssid` in which the SSID command succeeds and no event
arrives during the wait. -/
def ssidEnvQuiet : SsidEnv :=
  { ioctl_ret := 0, wait_events := [] }

/-- A frame of 188 bytes: event header with status success and `len = 140`, an escan
result with `buflen = 140` and `bss_count = 3`, all of whose network descriptors
declare the length 0. -/
def zeroLengthFrame : Nat → Nat :=
  fun off => if off = 20 then 140 else if off = 48 then 140 else if off = 58 then 3 else 0

/-- A frame of 58 bytes whose event header declares an envelope of 10 bytes, less than
the 12 bytes of a bare result header. -/
def shortEnvelopeFrame : Nat → Nat :=
  fun off => if off = 20 then 10 else 0

/-- A frame of 188 bytes: event header with status success and `len = 140`, an escan
result with `buflen = 140` and `bss_count = 2`, whose first network descriptor
(at offset 60) declares a length of 125 bytes, so that 3 of the 128 bytes of the
records area remain for the second descriptor (at offset 185). -/
def overreadFrame : Nat → Nat :=
  fun off =>
    if off = 20 then 140 else if off = 48 then 140 else if off = 58 then 2
    else if off = 64 then 125 else 0

/-- The constants of the IPv4 build: 20-byte IP header, 4-byte ICMP header. -/
def sampleIcmp : IcmpConfig :=
  { UIP_IPICMPH_LEN := 24
    UIP_ICMPH_LEN := 4
    UIP_TCPFLAG_DONTFRAG := 0x4000
    UIP_TTL := 64
    IP_PROTO_ICMP := 1
    CONFIG_NET_STATISTICS := true }

/-- A network device with `d_sndlen` bytes of data to send and a cleared header. -/
def sampleNetDev (d_sndlen : Nat) : net_driver_s :=
  { d_len := 0
    d_sndlen := d_sndlen
    d_ipaddr := 0x0a000002
    d_buf :=
      { vhl := 0, tos := 0, len := (0, 0), ipid := (0, 0), ipoffset := (0, 0), ttl := 0,
        proto := 0, ipchksum := 0, srcipaddr := 0, destipaddr := 0, icmpchksum := 0 }
    d_appdata := [8, 0, 0, 0] }

/-- C1: for every device, `bcmf_wl_is_scan_done` leaves the device unchanged and returns
`-EAGAIN` when `scan_status` is running, `OK` when it is done, and `-EINVAL` for every
other value, in particular for disabled and timed out. -/
theorem is_scan_done_contract (priv : bcmf_dev_s) :
    (bcmf_wl_is_scan_done priv).2 = priv ∧
    (priv.scan_status = BCMF_SCAN_RUN → (bcmf_wl_is_scan_done priv).1 = -EAGAIN) ∧
    (priv.scan_status = BCMF_SCAN_DONE → (bcmf_wl_is_scan_done priv).1 = OK) ∧
    (priv.scan_status ≠ BCMF_SCAN_RUN → priv.scan_status ≠ BCMF_SCAN_DONE →
      (bcmf_wl_is_scan_done priv).1 = -EINVAL) ∧
    (priv.scan_status = BCMF_SCAN_DISABLED → (bcmf_wl_is_scan_done priv).1 = -EINVAL) ∧
    (priv.scan_status = BCMF_SCAN_TIMEOUT → (bcmf_wl_is_scan_done priv).1 = -EINVAL) := by
  unfold bcmf_wl_is_scan_done
  refine ⟨?_, ?_, ?_, ?_, ?_, ?_⟩
  · split_ifs <;> rfl
  · intro h; simp [h]
  · intro h; simp [h, BCMF_SCAN_DONE, BCMF_SCAN_RUN]
  · intro h1 h2; simp [h1, h2]
  · intro h; simp [h, BCMF_SCAN_DISABLED, BCMF_SCAN_DONE, BCMF_SCAN_RUN]
  · intro h; simp [h, BCMF_SCAN_TIMEOUT, BCMF_SCAN_DONE, BCMF_SCAN_RUN]

/-- C9: with `scan_status` running, `bcmf_wl_scan_timeout` sets the status to timed
out, frees the pending request buffer and clears the pointer, and posts
`control_mutex` exactly once (count plus one); nothing else of the device changes. -/
theorem scan_timeout_running (priv : bcmf_dev_s)
    (h : priv.scan_status = BCMF_SCAN_RUN) :
    (bcmf_wl_scan_timeout priv).1 =
      { priv with
          scan_status := BCMF_SCAN_TIMEOUT
          scan_params := none
          control_mutex := priv.control_mutex + 1 } ∧
    (bcmf_wl_scan_timeout priv).2 =
      [Effect.free priv.scan_params, Effect.sem_post_control_mutex] ∧
    (bcmf_wl_scan_timeout priv).2.count Effect.sem_post_control_mutex = 1 := by
  have hlt : ¬ priv.scan_status < BCMF_SCAN_RUN := by rw [h]; exact lt_irrefl _
  unfold bcmf_wl_scan_timeout
  rw [if_neg hlt]
  refine ⟨rfl, rfl, ?_⟩
  simp [List.count_cons]

/-- Witness of C9 on the device with a scan in flight. -/
theorem scan_timeout_running_witness :
    runningDev.scan_status = BCMF_SCAN_RUN ∧
    (bcmf_wl_scan_timeout runningDev).1.scan_status = BCMF_SCAN_TIMEOUT ∧
    (bcmf_wl_scan_timeout runningDev).1.scan_params = none ∧
    (bcmf_wl_scan_timeout runningDev).1.control_mutex = 1 := by
  have h := scan_timeout_running runningDev rfl
  refine ⟨rfl, ?_, ?_, ?_⟩
  · rw [h.1]
  · rw [h.1]
  · rw [h.1]; rfl

/-- C10, counterexample: on a device whose scan is done (status not running, no
buffer, gate count 1, timer idle) `bcmf_wl_scan_timeout` passes its guard
`scan_status < BCMF_SCAN_RUN`: it overwrites the status with timed out and posts the
gate, whose count becomes 2. -/
theorem scan_timeout_done_counterexample :
    doneDev.scan_status ≠ BCMF_SCAN_RUN ∧
    doneDev.scan_status = BCMF_SCAN_DONE ∧
    (bcmf_wl_scan_timeout doneDev).1 ≠ doneDev ∧
    (bcmf_wl_scan_timeout doneDev).1.scan_status = BCMF_SCAN_TIMEOUT ∧
    doneDev.control_mutex = 1 ∧
    (bcmf_wl_scan_timeout doneDev).1.control_mutex = 2 ∧
    (bcmf_wl_scan_timeout doneDev).2 =
      [Effect.free none, Effect.sem_post_control_mutex] := by
  decide

/-- C10, amended: with `scan_status` below running (timed out = 0 or disabled = 1),
`bcmf_wl_scan_timeout` changes nothing of the device and makes no call: nothing is
freed and nothing is posted. -/
theorem scan_timeout_below_running (priv : bcmf_dev_s)
    (h : priv.scan_status < BCMF_SCAN_RUN) :
    bcmf_wl_scan_timeout priv = (priv, []) := by
  unfold bcmf_wl_scan_timeout
  rw [if_pos h]

/-- Witness of the amended C10 on a disabled device. -/
theorem scan_timeout_below_running_witness :
    disabledDev.scan_status < BCMF_SCAN_RUN ∧
    bcmf_wl_scan_timeout disabledDev = (disabledDev, []) :=
  ⟨by decide, scan_timeout_below_running disabledDev (by decide)⟩

/-- The loop reports `bss_len_error` only at a record whose declared length exceeds
the bytes left, of which there is at least one. -/
theorem bss_loop_len_error (cfg : Config) (mem : Nat → Nat) :
    ∀ (todo len bss bss_count l bl k : Nat),
      bss_loop cfg mem todo len bss bss_count = BssWalk.bss_len_error l bl k →
      0 < l ∧ l < bl := by
  intro todo
  induction todo with
  | zero =>
    intro len bss bss_count l bl k h
    simp [bss_loop] at h
  | succ n ih =>
    intro len bss bss_count l bl k h
    unfold bss_loop at h
    by_cases hlen : 0 < len
    · rw [if_pos hlen] at h
      by_cases hov : len < read_u32 mem (bss + cfg.off_bss_length)
      · simp only [hov, if_true] at h
        injection h with h1 h2 h3
        subst h1; subst h2
        exact ⟨hlen, hov⟩
      · simp only [hov, if_false] at h
        exact ih _ _ _ l bl k h
    · rw [if_neg hlen] at h
      cases h

/-- C7: for every device and every frame whose status is partial,
`bcmf_wl_scan_event_handler` returns with the device unchanged (status, request
buffer, gate count and timer included) and without any call. -/
theorem scan_event_partial (cfg : Config) (priv : bcmf_dev_s) (event : Nat → Nat)
    (len : Nat)
    (h : bcmf_getle32 event cfg.off_event_status = cfg.WLC_E_STATUS_PARTIAL) :
    bcmf_wl_scan_event_handler cfg priv event len = (priv, []) := by
  unfold bcmf_wl_scan_event_handler
  by_cases h1 : priv.scan_status < BCMF_SCAN_RUN
  · rw [if_pos h1]
  · rw [if_neg h1]
    cases hp : (escan_result_process cfg event len).reaches_processed
    · simp
    · simp [h]

/-- Witness of C7: a result frame with status partial delivered to the device whose
scan is in flight. -/
theorem scan_event_partial_witness :
    bcmf_getle32 (emptyResultFrame 8) sampleConfig.off_event_status
      = sampleConfig.WLC_E_STATUS_PARTIAL ∧
    bcmf_wl_scan_event_handler sampleConfig runningDev (emptyResultFrame 8) 60
      = (runningDev, []) :=
  ⟨by decide, scan_event_partial sampleConfig runningDev (emptyResultFrame 8) 60 (by decide)⟩

/-- C5, counterexample: the guard of the event handler is `scan_status < BCMF_SCAN_RUN`,
which lets the status done through.  On a device with status done and a pending
request buffer, a bare result frame with status success is not ignored: the buffer
is freed and cleared and the gate is posted (count 0 becomes 1). -/
theorem scan_event_done_counterexample :
    doneDevPending.scan_status ≠ BCMF_SCAN_RUN ∧
    doneDevPending.scan_status = BCMF_SCAN_DONE ∧
    doneDevPending.scan_params ≠ none ∧
    doneDevPending.control_mutex = 0 ∧
    (bcmf_wl_scan_event_handler sampleConfig doneDevPending (emptyResultFrame 0) 60).1.scan_params
      = none ∧
    (bcmf_wl_scan_event_handler sampleConfig doneDevPending (emptyResultFrame 0) 60).1.control_mutex
      = 1 ∧
    (bcmf_wl_scan_event_handler sampleConfig doneDevPending (emptyResultFrame 0) 60).2
      = [Effect.wd_cancel, Effect.free doneDevPending.scan_params,
         Effect.sem_post_control_mutex] := by
  decide

/-- C5, amended: with `scan_status` below running (timed out = 0 or disabled = 1) the
event handler ignores every frame: the device is unchanged (status, request buffer,
gate count, timer) and no call is made; so a result event that arrives after the
timeout has fired is a no-op.  With status done the frame is not ignored, and the
device is left unchanged when no request buffer is pending and the timer is idle;
the only call the handler can then make is the timer cancellation. -/
theorem scan_event_not_running (cfg : Config) (priv : bcmf_dev_s) (event : Nat → Nat)
    (len : Nat)
    (h : priv.scan_status < BCMF_SCAN_RUN ∨
      (priv.scan_status = BCMF_SCAN_DONE ∧ priv.scan_params = none ∧
        priv.scan_timeout = Wdog.idle)) :
    (bcmf_wl_scan_event_handler cfg priv event len).1 = priv ∧
    (priv.scan_status < BCMF_SCAN_RUN →
      (bcmf_wl_scan_event_handler cfg priv event len).2 = []) ∧
    (∀ e ∈ (bcmf_wl_scan_event_handler cfg priv event len).2, e = Effect.wd_cancel) := by
  unfold bcmf_wl_scan_event_handler
  by_cases h1 : priv.scan_status < BCMF_SCAN_RUN
  · simp [h1]
  · rcases h with h | ⟨_, hp, ht⟩
    · exact absurd h h1
    · rw [if_neg h1]
      obtain ⟨cm, ct, au, ss, st, sp, as⟩ := priv
      simp only at hp ht
      subst hp; subst ht
      simp only []
      simp only at h1
      split_ifs <;> simp [wd_cancel]
      exact not_lt.mp h1

/-- Witness of the amended C5: a success frame delivered to a device whose scan has
timed out (here: the device after `bcmf_wl_scan_timeout` on a running scan). -/
theorem scan_event_not_running_witness :
    (bcmf_wl_scan_timeout runningDev).1.scan_status = BCMF_SCAN_TIMEOUT ∧
    (bcmf_wl_scan_event_handler sampleConfig (bcmf_wl_scan_timeout runningDev).1
        (emptyResultFrame 0) 60).1 = (bcmf_wl_scan_timeout runningDev).1 :=
  ⟨by decide,
   (scan_event_not_running sampleConfig (bcmf_wl_scan_timeout runningDev).1
      (emptyResultFrame 0) 60 (Or.inl (by decide))).1⟩

/-- C6, counterexample: a well-formed result frame with a failure status (1, neither
partial nor success) delivered while the scan is running and a request buffer is
pending does not complete the attempt: the handler returns at its check
`status != WLC_E_STATUS_SUCCESS` with the device unchanged, so the status stays
running, the buffer stays pending, the timer stays armed and nothing is posted. -/
theorem scan_event_failure_status_counterexample :
    runningDev.scan_status = BCMF_SCAN_RUN ∧
    runningDev.scan_params ≠ none ∧
    (escan_result_process sampleConfig (emptyResultFrame 1) 60).reaches_processed = true ∧
    bcmf_getle32 (emptyResultFrame 1) sampleConfig.off_event_status
      ≠ sampleConfig.WLC_E_STATUS_PARTIAL ∧
    bcmf_wl_scan_event_handler sampleConfig runningDev (emptyResultFrame 1) 60
      = (runningDev, []) ∧
    (bcmf_wl_scan_event_handler sampleConfig runningDev (emptyResultFrame 1) 60).1.scan_status
      ≠ BCMF_SCAN_DONE := by
  decide

/-- C6, amended: for every well-formed result frame (its payload processing reaches
`wl_escan_result_processed`) whose status is not partial, delivered while
`scan_status` is running and a request buffer `p` is pending: when the status is
success the handler cancels the scan timer, frees the buffer and clears the pointer,
sets the status to done and posts `control_mutex` exactly once; when the status is
anything else the handler leaves the device unchanged and makes no call. -/
theorem scan_event_terminal (cfg : Config) (priv : bcmf_dev_s) (event : Nat → Nat)
    (len : Nat) (p : wl_escan_params)
    (hrun : priv.scan_status = BCMF_SCAN_RUN)
    (hbuf : priv.scan_params = some p)
    (hwf : (escan_result_process cfg event len).reaches_processed = true)
    (hnp : bcmf_getle32 event cfg.off_event_status ≠ cfg.WLC_E_STATUS_PARTIAL) :
    (bcmf_getle32 event cfg.off_event_status = cfg.WLC_E_STATUS_SUCCESS →
      bcmf_wl_scan_event_handler cfg priv event len =
        ({ priv with
            scan_timeout := Wdog.idle
            scan_params := none
            scan_status := BCMF_SCAN_DONE
            control_mutex := priv.control_mutex + 1 },
         [Effect.wd_cancel, Effect.free (some p), Effect.sem_post_control_mutex]) ∧
      (bcmf_wl_scan_event_handler cfg priv event len).2.count Effect.sem_post_control_mutex
        = 1) ∧
    (bcmf_getle32 event cfg.off_event_status ≠ cfg.WLC_E_STATUS_SUCCESS →
      bcmf_wl_scan_event_handler cfg priv event len = (priv, [])) := by
  have hlt : ¬ priv.scan_status < BCMF_SCAN_RUN := by rw [hrun]; exact lt_irrefl _
  unfold bcmf_wl_scan_event_handler
  rw [if_neg hlt]
  constructor
  · intro hs
    have hne : cfg.WLC_E_STATUS_SUCCESS ≠ cfg.WLC_E_STATUS_PARTIAL :=
      fun h => hnp (hs.trans h)
    simp [hwf, hs, hne, hbuf, wd_cancel, sem_post, List.count_cons]
  · intro hs
    simp [hwf, hnp, hs]

/-- Witness of the amended C6: the bare result frame with status success completes
the scan of the running device. -/
theorem scan_event_terminal_witness :
    (bcmf_wl_scan_event_handler sampleConfig runningDev (emptyResultFrame 0) 60).1.scan_status
      = BCMF_SCAN_DONE ∧
    (bcmf_wl_scan_event_handler sampleConfig runningDev (emptyResultFrame 0) 60).1.scan_params
      = none ∧
    (bcmf_wl_scan_event_handler sampleConfig runningDev (emptyResultFrame 0) 60).1.control_mutex
      = 1 := by
  have h := (scan_event_terminal sampleConfig runningDev (emptyResultFrame 0) 60
    (default_scan_request sampleConfig) rfl rfl (by decide) (by decide)).1 (by decide)
  rw [h.1]
  exact ⟨rfl, rfl, rfl⟩

/-- C3: for every device state in which the gate is free, when the first transport
call and the allocation succeed and the escan iovar request fails,
`bcmf_wl_start_scan` returns the I/O error `-EIO`; afterwards the request buffer
pointer is empty, `scan_status` is disabled, the gate count is what it was before the
call, the timer is as it was, and `wd_start` has not been called; the buffer that was
allocated has been freed. -/
theorem start_scan_iovar_fails (cfg : Config) (env : ScanEnv) (priv : bcmf_dev_s)
    (hgate : 0 < priv.control_mutex)
    (hioctl : env.ioctl_ret = 0)
    (hmalloc : env.malloc_ok = true)
    (hiovar : env.iovar_ret ≠ 0) :
    ∃ calls,
      bcmf_wl_start_scan cfg env priv
        = Outcome.returned (-EIO_errno)
            { priv with scan_params := none, scan_status := BCMF_SCAN_DISABLED } calls ∧
      (∀ delay entry, Effect.wd_start delay entry ∉ calls) ∧
      Effect.free (some (default_scan_request cfg)) ∈ calls ∧
      calls.count Effect.sem_wait_control_mutex = 1 ∧
      calls.count Effect.sem_post_control_mutex = 1 := by
  refine ⟨[Effect.bcmf_cdc_ioctl IoctlCmd.WLC_SET_PASSIVE_SCAN, Effect.sem_wait_control_mutex,
           Effect.kmm_malloc, Effect.bcmf_cdc_iovar_request IovarName.IOVAR_STR_ESCAN,
           Effect.free (some (default_scan_request cfg)), Effect.sem_post_control_mutex],
          ?_, ?_, ?_, ?_, ?_⟩
  · unfold bcmf_wl_start_scan sem_wait
    simp [hgate, hioctl, hmalloc, hiovar, sem_post, OK]
  · intro delay entry
    simp
  · simp
  · simp [List.count_cons]
  · simp [List.count_cons]

/-- Witness of C3: a failing escan request on the disabled device, whose gate is
free. -/
theorem start_scan_iovar_fails_witness :
    ∃ calls,
      bcmf_wl_start_scan sampleConfig envIovarFails disabledDev
        = Outcome.returned (-EIO_errno) disabledDev calls :=
  (start_scan_iovar_fails sampleConfig envIovarFails disabledDev (by decide) rfl rfl
    (by decide)).imp fun _ h => h.1

/-- C4: for every device state in which the gate is free, when both transport calls
and the allocation succeed, `bcmf_wl_start_scan` returns `OK`; afterwards
`scan_status` is running, a request buffer is pending, the gate count is one less
than before (the gate is held when it was 1), and the scan timer is armed for
`5 * CLOCKS_PER_SEC` ticks with `bcmf_wl_scan_timeout` as its entry. -/
theorem start_scan_succeeds (cfg : Config) (env : ScanEnv) (priv : bcmf_dev_s)
    (hgate : 0 < priv.control_mutex)
    (hioctl : env.ioctl_ret = 0)
    (hmalloc : env.malloc_ok = true)
    (hiovar : env.iovar_ret = 0) :
    ∃ calls,
      bcmf_wl_start_scan cfg env priv
        = Outcome.returned OK
            { priv with
                scan_status := BCMF_SCAN_RUN
                scan_params := some (default_scan_request cfg)
                control_mutex := priv.control_mutex - 1
                scan_timeout :=
                  Wdog.active (5 * cfg.CLOCKS_PER_SEC) wdentry.bcmf_wl_scan_timeout } calls ∧
      Effect.wd_start (5 * cfg.CLOCKS_PER_SEC) wdentry.bcmf_wl_scan_timeout ∈ calls ∧
      calls.count Effect.sem_wait_control_mutex = 1 ∧
      calls.count Effect.sem_post_control_mutex = 0 := by
  refine ⟨[Effect.bcmf_cdc_ioctl IoctlCmd.WLC_SET_PASSIVE_SCAN, Effect.sem_wait_control_mutex,
           Effect.kmm_malloc, Effect.bcmf_cdc_iovar_request IovarName.IOVAR_STR_ESCAN,
           Effect.wd_start (5 * cfg.CLOCKS_PER_SEC) wdentry.bcmf_wl_scan_timeout],
          ?_, ?_, ?_, ?_⟩
  · unfold bcmf_wl_start_scan sem_wait
    simp [hgate, hioctl, hmalloc, hiovar, wd_start, BCMF_SCAN_TIMEOUT_TICK, OK]
  · simp
  · simp [List.count_cons]
  · simp [List.count_cons]

/-- Witness of C4: a successful start on the disabled device leaves the gate held
and the device is the one with a scan in flight. -/
theorem start_scan_succeeds_witness :
    ∃ calls,
      bcmf_wl_start_scan sampleConfig envAllOk disabledDev
        = Outcome.returned OK runningDev calls :=
  (start_scan_succeeds sampleConfig envAllOk disabledDev (by decide) rfl rfl rfl).imp
    fun _ h => h.1

/-! ## Construction and sequences of operations -/

/-- A successful `bcmf_allocate_device` returns the disabled device: gate count 1,
signals at 0, timer idle, no request buffer. -/
theorem allocate_device_some (env : AllocEnv) (priv : bcmf_dev_s)
    (h : bcmf_allocate_device env = some priv) : priv = disabledDev := by
  unfold bcmf_allocate_device at h
  simp only at h
  split_ifs at h
  injection h with h
  rw [← h]
  rfl

/-- The three ways `bcmf_wl_scan_event_handler` can end: no change and no call; timer
cancelled only (no buffer pending); or the completion of the scan. -/
theorem scan_event_cases (cfg : Config) (priv : bcmf_dev_s) (event : Nat → Nat)
    (len : Nat) :
    bcmf_wl_scan_event_handler cfg priv event len = (priv, []) ∨
    (priv.scan_params = none ∧
      bcmf_wl_scan_event_handler cfg priv event len
        = ({ priv with scan_timeout := Wdog.idle }, [Effect.wd_cancel])) ∨
    (∃ p, priv.scan_params = some p ∧
      bcmf_wl_scan_event_handler cfg priv event len
        = ({ priv with
              scan_timeout := Wdog.idle
              scan_params := none
              scan_status := BCMF_SCAN_DONE
              control_mutex := priv.control_mutex + 1 },
           [Effect.wd_cancel, Effect.free (some p), Effect.sem_post_control_mutex])) := by
  unfold bcmf_wl_scan_event_handler
  by_cases h1 : priv.scan_status < BCMF_SCAN_RUN
  · left; rw [if_pos h1]
  · rw [if_neg h1]
    cases hp : (escan_result_process cfg event len).reaches_processed
    · left; simp
    · by_cases h2 : bcmf_getle32 event cfg.off_event_status = cfg.WLC_E_STATUS_PARTIAL
      · left; simp [h2]
      · by_cases h3 : bcmf_getle32 event cfg.off_event_status = cfg.WLC_E_STATUS_SUCCESS
        · right
          cases hb : priv.scan_params with
          | none =>
            left
            rw [h3] at h2
            simp [h3, h2, wd_cancel]
          | some p =>
            right
            rw [h3] at h2
            exact ⟨p, rfl, by simp [h3, h2, wd_cancel, sem_post]⟩
        · left; simp [h2, h3]

/-- The two ways `bcmf_wl_scan_timeout` can end: no change and no call, or the status
set to timed out with the buffer freed and the gate posted. -/
theorem scan_timeout_cases (priv : bcmf_dev_s) :
    bcmf_wl_scan_timeout priv = (priv, []) ∨
    (BCMF_SCAN_RUN ≤ priv.scan_status ∧
      bcmf_wl_scan_timeout priv
        = ({ priv with
              scan_status := BCMF_SCAN_TIMEOUT
              scan_params := none
              control_mutex := priv.control_mutex + 1 },
           [Effect.free priv.scan_params, Effect.sem_post_control_mutex])) := by
  unfold bcmf_wl_scan_timeout
  by_cases h1 : priv.scan_status < BCMF_SCAN_RUN
  · left; rw [if_pos h1]
  · right; rw [if_neg h1]; exact ⟨not_lt.mp h1, rfl⟩

/-- What a call of `bcmf_wl_start_scan` that returns leaves in the device: status and
buffer as before (with a non-zero return value); no buffer and status disabled (with
a non-zero return value); or, with return value `OK`, the default request pending,
status running, the gate count one less than the positive count before and the timer
armed. -/
theorem start_scan_returned_cases (cfg : Config) (env : ScanEnv) (priv priv' : bcmf_dev_s)
    (ret : Int) (calls : List Effect)
    (h : bcmf_wl_start_scan cfg env priv = Outcome.returned ret priv' calls) :
    (ret ≠ OK ∧ priv'.scan_params = priv.scan_params ∧ priv'.scan_status = priv.scan_status) ∨
    (ret ≠ OK ∧ priv'.scan_params = none ∧ priv'.scan_status = BCMF_SCAN_DISABLED) ∨
    (ret = OK ∧ 0 < priv.control_mutex ∧
      priv' = { priv with
                  scan_params := some (default_scan_request cfg)
                  scan_status := BCMF_SCAN_RUN
                  control_mutex := priv.control_mutex - 1
                  scan_timeout :=
                    Wdog.active (BCMF_SCAN_TIMEOUT_TICK cfg) wdentry.bcmf_wl_scan_timeout }) := by
  unfold bcmf_wl_start_scan at h
  by_cases h0 : env.ioctl_ret ≠ 0
  · rw [if_pos h0] at h
    injection h with hr hp _
    left
    subst hr; subst hp
    exact ⟨by decide, rfl, rfl⟩
  · rw [if_neg h0] at h
    unfold sem_wait at h
    by_cases hg : 0 < priv.control_mutex
    · simp only [hg, if_true] at h
      by_cases hm : env.malloc_ok = false
      · simp only [hm, if_true, ne_eq, not_true_eq_false, if_false] at h
        injection h with hr hp _
        right; left
        subst hr; subst hp
        exact ⟨by decide, rfl, rfl⟩
      · by_cases hv : env.iovar_ret ≠ 0
        · simp only [hm, hv, if_true, ne_eq, not_true_eq_false, if_false] at h
          injection h with hr hp _
          right; left
          subst hr; subst hp
          exact ⟨by decide, rfl, rfl⟩
        · simp only [hm, hv, if_true, ne_eq, not_true_eq_false, if_false] at h
          injection h with hr hp _
          right; right
          subst hr; subst hp
          exact ⟨rfl, hg, rfl⟩
    · simp only [hg, if_false] at h
      cases hi : env.sem_wait_interrupted
      · simp [hi] at h
      · simp only [hi, if_true] at h
        have hne : ERROR ≠ OK := by decide
        simp only [hne, ne_eq, not_false_eq_true, if_true] at h
        injection h with hr hp _
        left
        subst hr; subst hp
        exact ⟨by decide, rfl, rfl⟩

/-- C20: whenever `bcmf_allocate_device` succeeds, the device it returns has
`control_mutex` at count 1, `control_timeout` and `auth_signal` at count 0, an idle
scan timer, `scan_status` disabled, no pending scan request buffer and
`auth_status = 0`. -/
theorem allocate_device_fresh (env : AllocEnv) (priv : bcmf_dev_s)
    (h : bcmf_allocate_device env = some priv) :
    priv.control_mutex = 1 ∧ priv.control_timeout = 0 ∧ priv.auth_signal = 0 ∧
    priv.scan_timeout = Wdog.idle ∧ priv.scan_status = BCMF_SCAN_DISABLED ∧
    priv.scan_params = none ∧ priv.auth_status = 0 := by
  rw [allocate_device_some env priv h]
  exact ⟨rfl, rfl, rfl, rfl, rfl, rfl, rfl⟩

/-- Witness of C20: the allocation succeeds when every call it makes succeeds. -/
theorem allocate_device_fresh_witness :
    bcmf_allocate_device allocAllOk = some disabledDev ∧
    disabledDev.control_mutex = 1 ∧ disabledDev.scan_status = BCMF_SCAN_DISABLED :=
  ⟨by decide,
   (allocate_device_fresh allocAllOk disabledDev (by decide)).1,
   (allocate_device_fresh allocAllOk disabledDev (by decide)).2.2.2.2.1⟩

/-- C12: in every state reachable from a freshly constructed device by completed
calls of `bcmf_wl_start_scan` (any transport and allocation outcome),
`bcmf_wl_scan_event_handler` (any frame), `bcmf_wl_scan_timeout` and
`bcmf_wl_is_scan_done`, a scan request buffer is pending if and only if
`scan_status` is running. -/
theorem scan_params_iff_running (cfg : Config) (priv : bcmf_dev_s)
    (h : Reachable cfg priv) :
    priv.scan_params ≠ none ↔ priv.scan_status = BCMF_SCAN_RUN := by
  induction h with
  | fresh env priv hf =>
    rw [allocate_device_some env priv hf]
    decide
  | start_scan env priv ret priv' calls _ hs ih =>
    rcases start_scan_returned_cases cfg env priv priv' ret calls hs with
      ⟨_, hp, hst⟩ | ⟨_, hp, hst⟩ | ⟨_, _, he⟩
    · rw [hp, hst]; exact ih
    · rw [hp, hst]; decide
    · rw [he]; simp
  | scan_event priv event len _ ih =>
    rcases scan_event_cases cfg priv event len with he | ⟨_, he⟩ | ⟨p, _, he⟩
    · rw [he]; exact ih
    · rw [he]; exact ih
    · rw [he]; simp [BCMF_SCAN_DONE, BCMF_SCAN_RUN]
  | scan_timeout priv _ ih =>
    rcases scan_timeout_cases priv with he | ⟨_, he⟩
    · rw [he]; exact ih
    · rw [he]; simp [BCMF_SCAN_TIMEOUT, BCMF_SCAN_RUN]
  | is_scan_done priv _ ih =>
    have he : (bcmf_wl_is_scan_done priv).2 = priv := by
      unfold bcmf_wl_is_scan_done
      split_ifs <;> rfl
    rw [he]; exact ih

/-- Witness of C12: the device with a scan in flight is reachable (construction, then a
successful start) and has both a pending buffer and the status running. -/
theorem scan_params_iff_running_witness :
    Reachable sampleConfig runningDev ∧
    (runningDev.scan_params ≠ none ↔ runningDev.scan_status = BCMF_SCAN_RUN) :=
  have hr : Reachable sampleConfig runningDev :=
    Reachable.start_scan envAllOk disabledDev OK runningDev
      [Effect.bcmf_cdc_ioctl IoctlCmd.WLC_SET_PASSIVE_SCAN, Effect.sem_wait_control_mutex,
       Effect.kmm_malloc, Effect.bcmf_cdc_iovar_request IovarName.IOVAR_STR_ESCAN,
       Effect.wd_start 500 wdentry.bcmf_wl_scan_timeout]
      (Reachable.fresh allocAllOk disabledDev (by decide)) (by decide)
  ⟨hr, scan_params_iff_running sampleConfig runningDev hr⟩

/-- Running two sequences of completion events one after the other. -/
theorem completion_run_append (cfg : Config) :
    ∀ (a b : List CompletionOp) (priv : bcmf_dev_s),
      completion_run cfg priv (a ++ b)
        = ((completion_run cfg (completion_run cfg priv a).1 b).1,
           (completion_run cfg priv a).2 ++ (completion_run cfg (completion_run cfg priv a).1 b).2) := by
  intro a
  induction a with
  | nil => intro b priv; simp [completion_run]
  | cons op ops ih =>
    intro b priv
    have e : (op :: ops) ++ b = op :: (ops ++ b) := rfl
    rw [e]
    simp only [completion_run]
    rw [ih b]
    simp [List.append_assoc]

/-- Result events with status partial, however many, leave the device as it is and
make no call. -/
theorem completion_run_partials (cfg : Config) (priv : bcmf_dev_s) :
    ∀ (frames : List ((Nat → Nat) × Nat)),
      (∀ f ∈ frames, bcmf_getle32 f.1 cfg.off_event_status = cfg.WLC_E_STATUS_PARTIAL) →
      completion_run cfg priv (frames.map fun f => CompletionOp.scan_event f.1 f.2)
        = (priv, []) := by
  intro frames
  induction frames with
  | nil => intro _; rfl
  | cons f fs ih =>
    intro h
    have hf := h f (List.mem_cons_self f fs)
    have hstep : bcmf_wl_scan_event_handler cfg priv f.1 f.2 = (priv, []) := by
      unfold bcmf_wl_scan_event_handler
      by_cases h1 : priv.scan_status < BCMF_SCAN_RUN
      · rw [if_pos h1]
      · rw [if_neg h1]
        cases hp : (escan_result_process cfg f.1 f.2).reaches_processed
        · simp
        · simp [hf]
    simp only [List.map_cons, completion_run, completion_step, hstep]
    rw [ih fun g hg => h g (List.mem_cons_of_mem f hg)]
    rfl

/-- C11: from a freshly constructed device, after a successful `bcmf_wl_start_scan`
followed by any finite sequence of result frames with status partial and then one
well-formed frame with status success (success and partial being different status
codes), `bcmf_wl_is_scan_done` returns `OK`, no scan request buffer is pending, and
the gate count is 1 again, so that the `sem_wait` of a new start takes the gate at
once. -/
theorem scan_success_sequence (cfg : Config) (aenv : AllocEnv) (env : ScanEnv)
    (priv0 priv1 : bcmf_dev_s) (calls : List Effect)
    (partials : List ((Nat → Nat) × Nat)) (event : Nat → Nat) (len : Nat)
    (hne : cfg.WLC_E_STATUS_SUCCESS ≠ cfg.WLC_E_STATUS_PARTIAL)
    (hfresh : bcmf_allocate_device aenv = some priv0)
    (hstart : bcmf_wl_start_scan cfg env priv0 = Outcome.returned OK priv1 calls)
    (hpart : ∀ f ∈ partials,
      bcmf_getle32 f.1 cfg.off_event_status = cfg.WLC_E_STATUS_PARTIAL)
    (hwf : (escan_result_process cfg event len).reaches_processed = true)
    (hs : bcmf_getle32 event cfg.off_event_status = cfg.WLC_E_STATUS_SUCCESS) :
    (bcmf_wl_is_scan_done
      (completion_run cfg priv1
        ((partials.map fun f => CompletionOp.scan_event f.1 f.2)
          ++ [CompletionOp.scan_event event len])).1).1 = OK ∧
    (completion_run cfg priv1
        ((partials.map fun f => CompletionOp.scan_event f.1 f.2)
          ++ [CompletionOp.scan_event event len])).1.scan_params = none ∧
    (completion_run cfg priv1
        ((partials.map fun f => CompletionOp.scan_event f.1 f.2)
          ++ [CompletionOp.scan_event event len])).1.control_mutex = 1 ∧
    sem_wait (completion_run cfg priv1
        ((partials.map fun f => CompletionOp.scan_event f.1 f.2)
          ++ [CompletionOp.scan_event event len])).1.control_mutex false = some (OK, 0) := by
  have h0 := allocate_device_some aenv priv0 hfresh
  subst h0
  have h1 : priv1 = { disabledDev with
      scan_params := some (default_scan_request cfg)
      scan_status := BCMF_SCAN_RUN
      control_mutex := disabledDev.control_mutex - 1
      scan_timeout := Wdog.active (BCMF_SCAN_TIMEOUT_TICK cfg) wdentry.bcmf_wl_scan_timeout } := by
    rcases start_scan_returned_cases cfg env disabledDev priv1 OK calls hstart with
      ⟨hr, _⟩ | ⟨hr, _⟩ | ⟨_, _, he⟩
    · exact absurd rfl hr
    · exact absurd rfl hr
    · exact he
  have hp2 : ¬ cfg.WLC_E_STATUS_SUCCESS = cfg.WLC_E_STATUS_PARTIAL := hne
  have hfinal : bcmf_wl_scan_event_handler cfg priv1 event len
      = ({ priv1 with
            scan_timeout := Wdog.idle
            scan_params := none
            scan_status := BCMF_SCAN_DONE
            control_mutex := priv1.control_mutex + 1 },
         [Effect.wd_cancel, Effect.free priv1.scan_params, Effect.sem_post_control_mutex]) := by
    subst h1
    unfold bcmf_wl_scan_event_handler
    have hlt : ¬ BCMF_SCAN_RUN < BCMF_SCAN_RUN := lt_irrefl _
    simp [hlt, hwf, hs, hp2, wd_cancel, sem_post]
  rw [completion_run_append, completion_run_partials cfg priv1 partials hpart]
  simp only [completion_run, completion_step, hfinal]
  subst h1
  refine ⟨?_, ?_, ?_, ?_⟩
  · unfold bcmf_wl_is_scan_done
    simp [BCMF_SCAN_DONE, BCMF_SCAN_RUN]
  · simp
  · simp [disabledDev]
  · simp [disabledDev, sem_wait]

/-- Witness of C11: construction, a successful start, and the single bare result frame
with status success and no network descriptor. -/
theorem scan_success_sequence_witness :
    (bcmf_wl_is_scan_done
      (completion_run sampleConfig runningDev
        [CompletionOp.scan_event (emptyResultFrame 0) 60]).1).1 = OK ∧
    (completion_run sampleConfig runningDev
        [CompletionOp.scan_event (emptyResultFrame 0) 60]).1.scan_params = none ∧
    (completion_run sampleConfig runningDev
        [CompletionOp.scan_event (emptyResultFrame 0) 60]).1.control_mutex = 1 :=
  have h := scan_success_sequence sampleConfig allocAllOk envAllOk disabledDev runningDev
    [Effect.bcmf_cdc_ioctl IoctlCmd.WLC_SET_PASSIVE_SCAN, Effect.sem_wait_control_mutex,
     Effect.kmm_malloc, Effect.bcmf_cdc_iovar_request IovarName.IOVAR_STR_ESCAN,
     Effect.wd_start 500 wdentry.bcmf_wl_scan_timeout]
    [] (emptyResultFrame 0) 60 (by decide) (by decide) (by decide)
    (fun _ hf => absurd hf (List.not_mem_nil _)) (by decide) (by decide)
  ⟨h.1, h.2.1, h.2.2.1⟩

/-- Once the attempt is resolved (status not running, no buffer pending, timer idle),
a result event or a timer expiry posts nothing and leaves the attempt resolved. -/
theorem completion_step_resolved (cfg : Config) (priv : bcmf_dev_s) (op : CompletionOp)
    (hop : op ≠ CompletionOp.scan_timeout)
    (hst : priv.scan_status ≠ BCMF_SCAN_RUN) (hp : priv.scan_params = none)
    (ht : priv.scan_timeout = Wdog.idle) :
    (completion_step cfg priv op).1.scan_status ≠ BCMF_SCAN_RUN ∧
    (completion_step cfg priv op).1.scan_params = none ∧
    (completion_step cfg priv op).1.scan_timeout = Wdog.idle ∧
    (completion_step cfg priv op).2.count Effect.sem_post_control_mutex = 0 := by
  cases op with
  | scan_event event len =>
    simp only [completion_step]
    rcases scan_event_cases cfg priv event len with he | ⟨_, he⟩ | ⟨p, hb, _⟩
    · rw [he]; exact ⟨hst, hp, ht, rfl⟩
    · rw [he]; exact ⟨hst, hp, rfl, by simp [List.count_cons]⟩
    · rw [hp] at hb; cases hb
  | scan_timeout => exact absurd rfl hop
  | wd_expiry =>
    have he : wd_expiry priv = (priv, []) := by
      unfold wd_expiry
      rw [ht]
    simp only [completion_step, he]
    exact ⟨hst, hp, ht, rfl⟩

/-- While the attempt is open (status running, buffer pending), a result event or a
timer expiry either leaves it open without a post, or resolves it with exactly one
post. -/
theorem completion_step_open (cfg : Config) (priv : bcmf_dev_s) (op : CompletionOp)
    (hop : op ≠ CompletionOp.scan_timeout)
    (hst : priv.scan_status = BCMF_SCAN_RUN) (hp : priv.scan_params ≠ none) :
    ((completion_step cfg priv op).1.scan_status = BCMF_SCAN_RUN ∧
      (completion_step cfg priv op).1.scan_params ≠ none ∧
      (completion_step cfg priv op).2.count Effect.sem_post_control_mutex = 0) ∨
    ((completion_step cfg priv op).1.scan_status ≠ BCMF_SCAN_RUN ∧
      (completion_step cfg priv op).1.scan_params = none ∧
      (completion_step cfg priv op).1.scan_timeout = Wdog.idle ∧
      (completion_step cfg priv op).2.count Effect.sem_post_control_mutex = 1) := by
  cases op with
  | scan_event event len =>
    simp only [completion_step]
    rcases scan_event_cases cfg priv event len with he | ⟨hb, _⟩ | ⟨p, _, he⟩
    · left; rw [he]; exact ⟨hst, hp, rfl⟩
    · exact absurd hb hp
    · right; rw [he]
      have hd : BCMF_SCAN_DONE ≠ BCMF_SCAN_RUN := by decide
      exact ⟨hd, rfl, rfl, by simp [List.count_cons]⟩
  | scan_timeout => exact absurd rfl hop
  | wd_expiry =>
    simp only [completion_step, wd_expiry]
    cases htm : priv.scan_timeout with
    | idle => left; exact ⟨hst, hp, rfl⟩
    | active delay entry =>
      cases entry
      right
      have hlt : ¬ BCMF_SCAN_RUN < BCMF_SCAN_RUN := lt_irrefl _
      simp [bcmf_wl_scan_timeout, hst, hlt, List.count_cons, BCMF_SCAN_TIMEOUT, BCMF_SCAN_RUN]

/-- From a resolved attempt no sequence of result events and timer expiries posts. -/
theorem completion_run_resolved (cfg : Config) :
    ∀ (ops : List CompletionOp) (priv : bcmf_dev_s),
      (∀ op ∈ ops, op ≠ CompletionOp.scan_timeout) →
      priv.scan_status ≠ BCMF_SCAN_RUN → priv.scan_params = none →
      priv.scan_timeout = Wdog.idle →
      (completion_run cfg priv ops).2.count Effect.sem_post_control_mutex = 0 := by
  intro ops
  induction ops with
  | nil => intro priv _ _ _ _; rfl
  | cons op ops ih =>
    intro priv hops hst hp ht
    obtain ⟨h1, h2, h3, h4⟩ :=
      completion_step_resolved cfg priv op (hops op (List.mem_cons_self op ops)) hst hp ht
    simp only [completion_run, List.count_append, h4]
    rw [ih _ (fun o ho => hops o (List.mem_cons_of_mem op ho)) h1 h2 h3]

/-- From an open attempt every sequence of result events and timer expiries posts at
most once. -/
theorem completion_run_open (cfg : Config) :
    ∀ (ops : List CompletionOp) (priv : bcmf_dev_s),
      (∀ op ∈ ops, op ≠ CompletionOp.scan_timeout) →
      priv.scan_status = BCMF_SCAN_RUN → priv.scan_params ≠ none →
      (completion_run cfg priv ops).2.count Effect.sem_post_control_mutex ≤ 1 := by
  intro ops
  induction ops with
  | nil => intro priv _ _ _; simp [completion_run]
  | cons op ops ih =>
    intro priv hops hst hp
    have hrest : ∀ o ∈ ops, o ≠ CompletionOp.scan_timeout :=
      fun o ho => hops o (List.mem_cons_of_mem op ho)
    simp only [completion_run, List.count_append]
    rcases completion_step_open cfg priv op (hops op (List.mem_cons_self op ops)) hst hp with
      ⟨h1, h2, h3⟩ | ⟨h1, h2, h3, h4⟩
    · rw [h3, Nat.zero_add]
      exact ih _ hrest h1 h2
    · rw [h4, completion_run_resolved cfg ops _ hrest h1 h2 h3]

/-- C13, counterexample: after a successful start, a result event with status success
completes the scan and posts the gate; a timeout callback delivered afterwards finds
the status done, passes the guard `scan_status < BCMF_SCAN_RUN` and posts again: two
posts for one attempt, and a gate count of 2. -/
theorem completion_posts_twice_counterexample :
    bcmf_wl_start_scan sampleConfig envAllOk disabledDev
      = Outcome.returned OK runningDev
          [Effect.bcmf_cdc_ioctl IoctlCmd.WLC_SET_PASSIVE_SCAN, Effect.sem_wait_control_mutex,
           Effect.kmm_malloc, Effect.bcmf_cdc_iovar_request IovarName.IOVAR_STR_ESCAN,
           Effect.wd_start 500 wdentry.bcmf_wl_scan_timeout] ∧
    (completion_run sampleConfig runningDev
      [CompletionOp.scan_event (emptyResultFrame 0) 60, CompletionOp.scan_timeout]).2
      = [Effect.wd_cancel, Effect.free runningDev.scan_params, Effect.sem_post_control_mutex,
         Effect.free none, Effect.sem_post_control_mutex] ∧
    (completion_run sampleConfig runningDev
      [CompletionOp.scan_event (emptyResultFrame 0) 60, CompletionOp.scan_timeout]).2.count
        Effect.sem_post_control_mutex = 2 ∧
    (completion_run sampleConfig runningDev
      [CompletionOp.scan_event (emptyResultFrame 0) 60, CompletionOp.scan_timeout]).1.control_mutex
      = 2 := by
  decide

/-- C13, amended: after one successful `bcmf_wl_start_scan`, for every finite sequence
of result-event deliveries (any frames) and expiries of the scan timer (the timeout
callback runs only while the timer is armed, so not after a cancellation),
`bcmf_wl_scan_event_handler` and `bcmf_wl_scan_timeout` together post the gate at most
once. -/
theorem completion_posts_at_most_once (cfg : Config) (env : ScanEnv)
    (priv0 priv1 : bcmf_dev_s) (calls : List Effect) (ops : List CompletionOp)
    (hstart : bcmf_wl_start_scan cfg env priv0 = Outcome.returned OK priv1 calls)
    (hops : ∀ op ∈ ops, op ≠ CompletionOp.scan_timeout) :
    (completion_run cfg priv1 ops).2.count Effect.sem_post_control_mutex ≤ 1 := by
  rcases start_scan_returned_cases cfg env priv0 priv1 OK calls hstart with
    ⟨hr, _⟩ | ⟨hr, _⟩ | ⟨_, _, he⟩
  · exact absurd rfl hr
  · exact absurd rfl hr
  · refine completion_run_open cfg ops priv1 hops ?_ ?_
    · rw [he]
    · rw [he]; simp

/-- Witness of the amended C13: a success event, then a timer expiry (nothing is
delivered, the timer was cancelled), then a second success event. -/
theorem completion_posts_at_most_once_witness :
    (completion_run sampleConfig runningDev
      [CompletionOp.scan_event (emptyResultFrame 0) 60, CompletionOp.wd_expiry,
       CompletionOp.scan_event (emptyResultFrame 0) 60]).2.count
        Effect.sem_post_control_mutex ≤ 1 :=
  completion_posts_at_most_once sampleConfig envAllOk disabledDev runningDev
    [Effect.bcmf_cdc_ioctl IoctlCmd.WLC_SET_PASSIVE_SCAN, Effect.sem_wait_control_mutex,
     Effect.kmm_malloc, Effect.bcmf_cdc_iovar_request IovarName.IOVAR_STR_ESCAN,
     Effect.wd_start 500 wdentry.bcmf_wl_scan_timeout]
    _ (by decide)
    (by
      intro op hop
      simp only [List.mem_cons, List.mem_singleton, List.not_mem_nil, or_false] at hop
      rcases hop with h | h | h <;> rw [h] <;> exact fun e => CompletionOp.noConfusion e)

/-! ## Association and authentication -/

/-- C14: for every event frame, `bcmf_wl_auth_event_handler` records `auth_status`
(the value `OK`) and posts `auth_signal` exactly once when the type of the frame is
`WLC_E_SET_SSID` and its status is `WLC_E_STATUS_SUCCESS`; for every other pair of
type and status it leaves the device, `auth_status` and the count of `auth_signal`
included, unchanged and posts nothing.  So a post happens if and only if the pair
matches. -/
theorem auth_event_handler_contract (cfg : Config) (priv : bcmf_dev_s)
    (event : Nat → Nat) (len : Nat) :
    (bcmf_getle32 event cfg.off_event_type = cfg.WLC_E_SET_SSID ∧
      bcmf_getle32 event cfg.off_event_status = cfg.WLC_E_STATUS_SUCCESS →
      bcmf_wl_auth_event_handler cfg priv event len
        = ({ priv with auth_status := OK, auth_signal := priv.auth_signal + 1 },
           [Effect.sem_post_auth_signal])) ∧
    (¬ (bcmf_getle32 event cfg.off_event_type = cfg.WLC_E_SET_SSID ∧
        bcmf_getle32 event cfg.off_event_status = cfg.WLC_E_STATUS_SUCCESS) →
      bcmf_wl_auth_event_handler cfg priv event len = (priv, [])) ∧
    ((bcmf_wl_auth_event_handler cfg priv event len).2.count Effect.sem_post_auth_signal = 1 ↔
      (bcmf_getle32 event cfg.off_event_type = cfg.WLC_E_SET_SSID ∧
        bcmf_getle32 event cfg.off_event_status = cfg.WLC_E_STATUS_SUCCESS)) ∧
    ((bcmf_wl_auth_event_handler cfg priv event len).1.auth_signal = priv.auth_signal + 1 ↔
      (bcmf_getle32 event cfg.off_event_type = cfg.WLC_E_SET_SSID ∧
        bcmf_getle32 event cfg.off_event_status = cfg.WLC_E_STATUS_SUCCESS)) := by
  unfold bcmf_wl_auth_event_handler
  by_cases h : bcmf_getle32 event cfg.off_event_type = cfg.WLC_E_SET_SSID ∧
      bcmf_getle32 event cfg.off_event_status = cfg.WLC_E_STATUS_SUCCESS
  · simp [h, sem_post, List.count_cons]
  · simp [h]

/-- C15, counterexample: with the SSID command and the wait both successful,
`bcmf_wl_set_ssid` returns the same value `-EINVAL` for `auth_status = 1` and for
`auth_status = 2`: the result does not carry the code, and distinct codes cannot be
told apart. -/
theorem set_ssid_code_not_carried_counterexample :
    (authPostedDev 1).auth_status ≠ OK ∧ (authPostedDev 2).auth_status ≠ OK ∧
    (authPostedDev 1).auth_status ≠ (authPostedDev 2).auth_status ∧
    ssidEnvQuiet.ioctl_ret = 0 ∧
    (bcmf_sem_wait sampleConfig ssidEnvQuiet.wait_events (authPostedDev 1)).1 = OK ∧
    (bcmf_sem_wait sampleConfig ssidEnvQuiet.wait_events (authPostedDev 2)).1 = OK ∧
    (bcmf_wl_set_ssid sampleConfig sampleWext ssidEnvQuiet (authPostedDev 1)
      (sampleReq 0 0 0)).1 = -EINVAL ∧
    (bcmf_wl_set_ssid sampleConfig sampleWext ssidEnvQuiet (authPostedDev 2)
      (sampleReq 0 0 0)).1 = -EINVAL := by
  decide

/-- C15, amended: for every non-success value `c` of `auth_status`, when the SSID
command succeeds and the bounded wait on `auth_signal` succeeds, `bcmf_wl_set_ssid`
returns `-EINVAL`, whatever `c` is: the code is written to the log only and is not
part of the result. -/
theorem set_ssid_auth_failure (cfg : Config) (wc : WextConfig) (env : SsidEnv)
    (priv : bcmf_dev_s) (iwr : iwreq) (c : Int)
    (hif : 0 ≤ wc.CHIP_STA_INTERFACE)
    (hio : env.ioctl_ret = 0)
    (hwait : (bcmf_sem_wait cfg env.wait_events priv).1 = OK)
    (hc : (bcmf_sem_wait cfg env.wait_events priv).2.1.auth_status = c)
    (hne : c ≠ OK) :
    (bcmf_wl_set_ssid cfg wc env priv iwr).1 = -EINVAL := by
  have hi : ¬ wc.CHIP_STA_INTERFACE < 0 := not_lt.mpr hif
  have hw : (bcmf_sem_wait cfg env.wait_events priv).1 = 0 := hwait
  have hs : ¬ (bcmf_sem_wait cfg env.wait_events priv).2.1.auth_status = OK := by
    rw [hc]; exact hne
  unfold bcmf_wl_set_ssid bcmf_wl_get_interface
  simp [hi, hio, hw, hs]

/-- Witness of the amended C15 on a device with a posted signal and
`auth_status = 1`. -/
theorem set_ssid_auth_failure_witness :
    (bcmf_wl_set_ssid sampleConfig sampleWext ssidEnvQuiet (authPostedDev 1)
      (sampleReq 0 0 0)).1 = -EINVAL :=
  set_ssid_auth_failure sampleConfig sampleWext ssidEnvQuiet (authPostedDev 1)
    (sampleReq 0 0 0) 1 (by decide) (by decide) (by decide) (by decide) (by decide)

/-- C16, counterexample: `bcmf_wl_set_ssid` returns `-EINVAL` when the wait on
`auth_signal` times out (fresh device, no event during the wait) and the same
`-EINVAL` when the wait succeeds with the non-success `auth_status = 1`: the two
results are equal. -/
theorem set_ssid_timeout_same_error_counterexample :
    (bcmf_sem_wait sampleConfig ssidEnvQuiet.wait_events disabledDev).1 ≠ 0 ∧
    (bcmf_sem_wait sampleConfig ssidEnvQuiet.wait_events (authPostedDev 1)).1 = 0 ∧
    (authPostedDev 1).auth_status ≠ OK ∧
    (bcmf_wl_set_ssid sampleConfig sampleWext ssidEnvQuiet disabledDev (sampleReq 0 0 0)).1
      = -EINVAL ∧
    (bcmf_wl_set_ssid sampleConfig sampleWext ssidEnvQuiet disabledDev (sampleReq 0 0 0)).1
      = (bcmf_wl_set_ssid sampleConfig sampleWext ssidEnvQuiet (authPostedDev 1)
          (sampleReq 0 0 0)).1 := by
  decide

/-- C16, amended: when the SSID command has succeeded and the bounded wait on
`auth_signal` times out, `bcmf_wl_set_ssid` returns the invalid-state error `-EINVAL`;
it returns the same `-EINVAL` when the wait succeeds and `auth_status` is a
non-success code, so the two outcomes differ in the log message only. -/
theorem set_ssid_timeout_and_failure (cfg : Config) (wc : WextConfig) (env : SsidEnv)
    (priv : bcmf_dev_s) (iwr : iwreq)
    (hif : 0 ≤ wc.CHIP_STA_INTERFACE)
    (hio : env.ioctl_ret = 0) :
    ((bcmf_sem_wait cfg env.wait_events priv).1 ≠ 0 →
      (bcmf_wl_set_ssid cfg wc env priv iwr).1 = -EINVAL) ∧
    ((bcmf_sem_wait cfg env.wait_events priv).1 = 0 →
      (bcmf_sem_wait cfg env.wait_events priv).2.1.auth_status ≠ OK →
      (bcmf_wl_set_ssid cfg wc env priv iwr).1 = -EINVAL) := by
  have hi : ¬ wc.CHIP_STA_INTERFACE < 0 := not_lt.mpr hif
  unfold bcmf_wl_set_ssid bcmf_wl_get_interface
  constructor
  · intro hw
    simp [hi, hio, hw]
  · intro hw hs
    simp [hi, hio, hw, hs]

/-- Witness of the amended C16: the wait of a fresh device times out when no event
arrives. -/
theorem set_ssid_timeout_and_failure_witness :
    (bcmf_sem_wait sampleConfig ssidEnvQuiet.wait_events disabledDev).1 ≠ 0 ∧
    (bcmf_wl_set_ssid sampleConfig sampleWext ssidEnvQuiet disabledDev (sampleReq 0 0 0)).1
      = -EINVAL :=
  ⟨by decide,
   (set_ssid_timeout_and_failure sampleConfig sampleWext ssidEnvQuiet disabledDev
      (sampleReq 0 0 0) (by decide) (by decide)).1 (by decide)⟩

/-- The auth event handler adds its posts to the count of `auth_signal`, takes
nothing, and keeps a non-negative count non-negative. -/
theorem auth_event_accounting (cfg : Config) (priv : bcmf_dev_s) (event : Nat → Nat)
    (len : Nat) :
    (bcmf_wl_auth_event_handler cfg priv event len).1.auth_signal
      = priv.auth_signal
        + ((bcmf_wl_auth_event_handler cfg priv event len).2.count
            Effect.sem_post_auth_signal : Int)
        - ((bcmf_wl_auth_event_handler cfg priv event len).2.count
            (Effect.bcmf_sem_wait_auth_signal OK) : Int) ∧
    (0 ≤ priv.auth_signal →
      0 ≤ (bcmf_wl_auth_event_handler cfg priv event len).1.auth_signal) := by
  unfold bcmf_wl_auth_event_handler
  by_cases h : bcmf_getle32 event cfg.off_event_type = cfg.WLC_E_SET_SSID ∧
      bcmf_getle32 event cfg.off_event_status = cfg.WLC_E_STATUS_SUCCESS
  · simp [h, sem_post, List.count_cons]
    intro h0
    omega
  · simp [h]

/-- The bounded wait on `auth_signal`: the count afterwards is the count before, plus
the posts made during the wait, minus one when the wait succeeds; a non-negative
count stays non-negative. -/
theorem sem_wait_accounting (cfg : Config) :
    ∀ (events : List ((Nat → Nat) × Nat)) (priv : bcmf_dev_s),
      (bcmf_sem_wait cfg events priv).2.1.auth_signal
        = priv.auth_signal
          + ((bcmf_sem_wait cfg events priv).2.2.count Effect.sem_post_auth_signal : Int)
          - ((bcmf_sem_wait cfg events priv).2.2.count
              (Effect.bcmf_sem_wait_auth_signal OK) : Int) ∧
      (0 ≤ priv.auth_signal → 0 ≤ (bcmf_sem_wait cfg events priv).2.1.auth_signal) := by
  intro events
  induction events with
  | nil =>
    intro priv
    unfold bcmf_sem_wait
    by_cases h : 0 < priv.auth_signal
    · simp [h, List.count_cons]
      omega
    · simp [h, List.count_cons, ERROR, OK]
  | cons e rest ih =>
    intro priv
    unfold bcmf_sem_wait
    by_cases h : 0 < priv.auth_signal
    · simp [h, List.count_cons]
      omega
    · simp only [h, if_false, List.count_append, Nat.cast_add]
      obtain ⟨h1, h2⟩ := auth_event_accounting cfg priv e.1 e.2
      obtain ⟨h3, h4⟩ := ih (bcmf_wl_auth_event_handler cfg priv e.1 e.2).1
      constructor
      · rw [h3, h1]; ring
      · intro h0; exact h4 (h2 h0)

/-- One step of the association workflow: the count of `auth_signal` afterwards is
the count before, plus the posts, minus the successful waits; a non-negative count
stays non-negative. -/
theorem auth_step_accounting (cfg : Config) (wc : WextConfig) (priv : bcmf_dev_s)
    (op : AuthOp) :
    (auth_step cfg wc priv op).1.auth_signal
      = priv.auth_signal
        + ((auth_step cfg wc priv op).2.count Effect.sem_post_auth_signal : Int)
        - ((auth_step cfg wc priv op).2.count (Effect.bcmf_sem_wait_auth_signal OK) : Int) ∧
    (0 ≤ priv.auth_signal → 0 ≤ (auth_step cfg wc priv op).1.auth_signal) := by
  cases op with
  | auth_event event len =>
    simp only [auth_step]
    exact auth_event_accounting cfg priv event len
  | set_ssid env iwr =>
    simp only [auth_step]
    obtain ⟨h1, h2⟩ := sem_wait_accounting cfg env.wait_events priv
    unfold bcmf_wl_set_ssid
    by_cases hi : bcmf_wl_get_interface wc iwr < 0
    · simp [hi]
    · by_cases hio : env.ioctl_ret ≠ 0
      · simp [hi, hio, List.count_cons]
      · have hio0 : env.ioctl_ret = 0 := not_not.mp hio
        simp only [hi, if_false, hio0, ne_eq, not_true_eq_false]
        split_ifs <;> simp only [List.count_cons] <;> simp <;> exact ⟨h1, h2⟩

/-- A sequence of steps of the association workflow: the count of `auth_signal`
afterwards is the count before, plus the posts, minus the successful waits; a
non-negative count stays non-negative. -/
theorem auth_run_accounting (cfg : Config) (wc : WextConfig) :
    ∀ (ops : List AuthOp) (priv : bcmf_dev_s),
      (auth_run cfg wc priv ops).1.auth_signal
        = priv.auth_signal
          + ((auth_run cfg wc priv ops).2.count Effect.sem_post_auth_signal : Int)
          - ((auth_run cfg wc priv ops).2.count (Effect.bcmf_sem_wait_auth_signal OK) : Int) ∧
      (0 ≤ priv.auth_signal → 0 ≤ (auth_run cfg wc priv ops).1.auth_signal) := by
  intro ops
  induction ops with
  | nil => intro priv; simp [auth_run]
  | cons op ops ih =>
    intro priv
    obtain ⟨h1, h2⟩ := auth_step_accounting cfg wc priv op
    obtain ⟨h3, h4⟩ := ih (auth_step cfg wc priv op).1
    simp only [auth_run, List.count_append, Nat.cast_add]
    constructor
    · rw [h3, h1]; ring
    · intro h0; exact h4 (h2 h0)

/-- C17, counterexample: from a freshly constructed device, two association-complete
events in a row leave the count of `auth_signal` at 2; and after one such event a
`bcmf_wl_set_ssid` during whose wait no event arrives still finds the signal posted
and returns `OK`: its successful wait corresponds to an event that arrived before the
SSID command was issued. -/
theorem auth_signal_unbounded_counterexample :
    bcmf_allocate_device allocAllOk = some disabledDev ∧
    (auth_run sampleConfig sampleWext disabledDev
      [AuthOp.auth_event (authFrame 0 0) 48, AuthOp.auth_event (authFrame 0 0) 48]).1.auth_signal
      = 2 ∧
    (auth_run sampleConfig sampleWext disabledDev
      [AuthOp.auth_event (authFrame 0 0) 48,
       AuthOp.set_ssid ssidEnvQuiet (sampleReq 0 0 0)]).2
      = [Effect.sem_post_auth_signal,
         Effect.bcmf_cdc_ioctl (IoctlCmd.WLC_SET_SSID [104, 111, 109, 101] 4),
         Effect.bcmf_sem_wait_auth_signal OK] ∧
    (bcmf_wl_set_ssid sampleConfig sampleWext ssidEnvQuiet
      (auth_run sampleConfig sampleWext disabledDev
        [AuthOp.auth_event (authFrame 0 0) 48]).1 (sampleReq 0 0 0)).1 = OK := by
  decide

/-- What the auth event handler does to the count of `auth_signal`: one post, and
one more in the count, for an association-complete event; nothing for any other. -/
theorem auth_event_spec (cfg : Config) (priv : bcmf_dev_s) (event : Nat → Nat) (len : Nat) :
    (spec_assoc_complete cfg event = true →
      (bcmf_wl_auth_event_handler cfg priv event len).1.auth_signal = priv.auth_signal + 1 ∧
      (bcmf_wl_auth_event_handler cfg priv event len).2.count Effect.sem_post_auth_signal = 1) ∧
    (spec_assoc_complete cfg event = false →
      bcmf_wl_auth_event_handler cfg priv event len = (priv, [])) := by
  unfold spec_assoc_complete bcmf_wl_auth_event_handler
  by_cases h : bcmf_getle32 event cfg.off_event_type = cfg.WLC_E_SET_SSID ∧
      bcmf_getle32 event cfg.off_event_status = cfg.WLC_E_STATUS_SUCCESS
  · simp [h, sem_post, List.count_cons]
  · simp [h]

/-- A wait on a posted `auth_signal` returns at once with `OK` and takes one post,
whatever events would follow. -/
theorem sem_wait_posted (cfg : Config) (events : List ((Nat → Nat) × Nat))
    (priv : bcmf_dev_s) (h : 0 < priv.auth_signal) :
    bcmf_sem_wait cfg events priv
      = (OK, { priv with auth_signal := priv.auth_signal - 1 },
         [Effect.bcmf_sem_wait_auth_signal OK]) := by
  cases events with
  | nil => unfold bcmf_sem_wait; rw [if_pos h]
  | cons e rest => unfold bcmf_sem_wait; rw [if_pos h]

/-- A wait on an `auth_signal` that is not posted: the first association-complete event
of the wait posts once and the wait takes that post; without such an event nothing
is posted; the count is 0 afterwards in both cases. -/
theorem sem_wait_unposted (cfg : Config) :
    ∀ (events : List ((Nat → Nat) × Nat)) (priv : bcmf_dev_s), priv.auth_signal = 0 →
      (bcmf_sem_wait cfg events priv).2.1.auth_signal = 0 ∧
      (bcmf_sem_wait cfg events priv).2.2.count Effect.sem_post_auth_signal
        = if events.any (fun e => spec_assoc_complete cfg e.1) then 1 else 0 := by
  intro events
  induction events with
  | nil =>
    intro priv h
    have hn : ¬ 0 < priv.auth_signal := by rw [h]; exact lt_irrefl _
    unfold bcmf_sem_wait
    rw [if_neg hn]
    exact ⟨h, by simp [List.count_cons]⟩
  | cons e rest ih =>
    intro priv h
    have hn : ¬ 0 < priv.auth_signal := by rw [h]; exact lt_irrefl _
    unfold bcmf_sem_wait
    rw [if_neg hn]
    obtain ⟨hyes, hno⟩ := auth_event_spec cfg priv e.1 e.2
    cases hc : spec_assoc_complete cfg e.1 with
    | true =>
      obtain ⟨h1, h2⟩ := hyes hc
      have hpos : 0 < (bcmf_wl_auth_event_handler cfg priv e.1 e.2).1.auth_signal := by
        rw [h1, h]; decide
      rw [sem_wait_posted cfg rest _ hpos]
      simp only [List.count_append, h2, List.any_cons, hc, Bool.true_or, if_true]
      constructor
      · rw [h1, h]; rfl
      · simp [List.count_cons]
    | false =>
      rw [hno hc]
      obtain ⟨h3, h4⟩ := ih priv h
      simp only [List.nil_append, List.any_cons, hc, Bool.false_or]
      exact ⟨h3, h4⟩

/-- One step of the association workflow does to the count of `auth_signal`, and
posts, what the spec-side reading says. -/
theorem auth_step_spec (cfg : Config) (wc : WextConfig) (priv : bcmf_dev_s) (op : AuthOp)
    (h0 : 0 ≤ priv.auth_signal) :
    (auth_step cfg wc priv op).1.auth_signal
      = (spec_auth_step cfg wc priv.auth_signal op).1 ∧
    (auth_step cfg wc priv op).2.count Effect.sem_post_auth_signal
      = (spec_auth_step cfg wc priv.auth_signal op).2 := by
  cases op with
  | auth_event event len =>
    simp only [auth_step, spec_auth_step]
    obtain ⟨hyes, hno⟩ := auth_event_spec cfg priv event len
    cases hc : spec_assoc_complete cfg event with
    | true =>
      obtain ⟨h1, h2⟩ := hyes hc
      simp only [if_true]
      exact ⟨h1, h2⟩
    | false =>
      rw [hno hc]
      simp
  | set_ssid env iwr =>
    simp only [auth_step, spec_auth_step]
    unfold bcmf_wl_set_ssid bcmf_wl_get_interface
    by_cases hi : wc.CHIP_STA_INTERFACE < 0
    · simp [hi]
    · by_cases hio : env.ioctl_ret ≠ 0
      · simp [hi, hio, List.count_cons]
      · have hio0 : env.ioctl_ret = 0 := not_not.mp hio
        have hcond : ¬ (wc.CHIP_STA_INTERFACE < 0 ∨ env.ioctl_ret ≠ 0) := by
          intro h
          rcases h with h | h
          · exact hi h
          · exact hio h
        rw [if_neg hcond]
        simp only [hi, if_false, hio0, ne_eq, not_true_eq_false]
        have hstate : ∀ (ret : Int) (p : bcmf_dev_s) (calls : List Effect),
            ((if ¬ ret = 0 then (-EINVAL, p, calls)
              else if p.auth_status = OK then (OK, p, calls) else (-EINVAL, p, calls)) :
                Int × bcmf_dev_s × List Effect).2 = (p, calls) := by
          intro ret p calls
          split_ifs <;> rfl
        rw [hstate]
        have hcnt : ∀ (c : IoctlCmd) (l : List Effect),
            List.count Effect.sem_post_auth_signal (Effect.bcmf_cdc_ioctl c :: l)
              = List.count Effect.sem_post_auth_signal l := by
          intro c l
          simp [List.count_cons]
        simp only [hcnt]
        by_cases hpos : 0 < priv.auth_signal
        · rw [sem_wait_posted cfg env.wait_events priv hpos, if_pos hpos]
          simp [List.count_cons]
        · have hz : priv.auth_signal = 0 := le_antisymm (not_lt.mp hpos) h0
          obtain ⟨h3, h4⟩ := sem_wait_unposted cfg env.wait_events priv hz
          rw [if_neg hpos, h3, h4]
          split_ifs <;> simp [hz]

/-- A sequence of steps of the association workflow does to the count of
`auth_signal`, and posts, what the spec-side reading says. -/
theorem auth_run_spec (cfg : Config) (wc : WextConfig) :
    ∀ (ops : List AuthOp) (priv : bcmf_dev_s), 0 ≤ priv.auth_signal →
      (auth_run cfg wc priv ops).1.auth_signal
        = (spec_auth_run cfg wc priv.auth_signal ops).1 ∧
      (auth_run cfg wc priv ops).2.count Effect.sem_post_auth_signal
        = (spec_auth_run cfg wc priv.auth_signal ops).2 := by
  intro ops
  induction ops with
  | nil => intro priv _; simp [auth_run, spec_auth_run]
  | cons op ops ih =>
    intro priv h0
    obtain ⟨h1, h2⟩ := auth_step_spec cfg wc priv op h0
    have hnn := (auth_step_accounting cfg wc priv op).2 h0
    obtain ⟨h3, h4⟩ := ih (auth_step cfg wc priv op).1 hnn
    simp only [auth_run, spec_auth_run, List.count_append]
    rw [h3, h4, h1, h2]
    exact ⟨rfl, rfl⟩

/-- The spec-side reading of a sequence of events alone: the count grows by the number
of association-complete events, each of which is one post. -/
theorem spec_auth_run_events (cfg : Config) (wc : WextConfig) :
    ∀ (frames : List ((Nat → Nat) × Nat)) (c : Int),
      spec_auth_run cfg wc c (frames.map fun f => AuthOp.auth_event f.1 f.2)
        = (c + (frames.countP fun f => spec_assoc_complete cfg f.1 : Nat),
           frames.countP fun f => spec_assoc_complete cfg f.1) := by
  intro frames
  induction frames with
  | nil => intro c; simp [spec_auth_run]
  | cons f fs ih =>
    intro c
    simp only [List.map_cons, spec_auth_run, spec_auth_step]
    cases hc : spec_assoc_complete cfg f.1 with
    | true =>
      simp only [if_true, ih, List.countP_cons, hc]
      refine Prod.ext ?_ ?_
      · simp only [Nat.cast_add, Nat.cast_one]
        ring
      · simp only [Nat.add_comm]
    | false =>
      simp only [Bool.false_eq_true, if_false, ih, List.countP_cons, hc]
      simp

/-- C17, amended: every association-complete event (type `WLC_E_SET_SSID`, status
success) posts `auth_signal` once, whether or not a `bcmf_wl_set_ssid` is waiting,
and every successful wait of `bcmf_wl_set_ssid` takes one post.  After every sequence
of auth events and `bcmf_wl_set_ssid` calls from a freshly constructed device, the
count of `auth_signal` and the number of posts are the ones the events themselves
give (`spec_auth_run`); the count is the number of posts minus the number of
successful waits and is never negative; and after a sequence of events alone the
count is the number of association-complete events among them, so it is not bounded
by 1. -/
theorem auth_signal_accounting (cfg : Config) (wc : WextConfig) (aenv : AllocEnv)
    (priv0 : bcmf_dev_s) (ops : List AuthOp)
    (hfresh : bcmf_allocate_device aenv = some priv0) :
    (∀ (priv : bcmf_dev_s) (event : Nat → Nat) (len : Nat),
      (spec_assoc_complete cfg event = true →
        (bcmf_wl_auth_event_handler cfg priv event len).1.auth_signal = priv.auth_signal + 1 ∧
        (bcmf_wl_auth_event_handler cfg priv event len).2 = [Effect.sem_post_auth_signal]) ∧
      (spec_assoc_complete cfg event = false →
        bcmf_wl_auth_event_handler cfg priv event len = (priv, []))) ∧
    (auth_run cfg wc priv0 ops).1.auth_signal = (spec_auth_run cfg wc 0 ops).1 ∧
    (auth_run cfg wc priv0 ops).2.count Effect.sem_post_auth_signal
      = (spec_auth_run cfg wc 0 ops).2 ∧
    (auth_run cfg wc priv0 ops).1.auth_signal
      = ((auth_run cfg wc priv0 ops).2.count Effect.sem_post_auth_signal : Int)
        - ((auth_run cfg wc priv0 ops).2.count (Effect.bcmf_sem_wait_auth_signal OK) : Int) ∧
    0 ≤ (auth_run cfg wc priv0 ops).1.auth_signal ∧
    (∀ frames : List ((Nat → Nat) × Nat),
      (auth_run cfg wc priv0 (frames.map fun f => AuthOp.auth_event f.1 f.2)).1.auth_signal
        = (frames.countP fun f => spec_assoc_complete cfg f.1 : Nat) ∧
      (auth_run cfg wc priv0 (frames.map fun f => AuthOp.auth_event f.1 f.2)).2.count
          Effect.sem_post_auth_signal
        = frames.countP fun f => spec_assoc_complete cfg f.1) := by
  have h0 := allocate_device_some aenv priv0 hfresh
  subst h0
  have hz : disabledDev.auth_signal = 0 := rfl
  have hnn : 0 ≤ disabledDev.auth_signal := by rw [hz]
  obtain ⟨h1, h2⟩ := auth_run_accounting cfg wc ops disabledDev
  obtain ⟨h3, h4⟩ := auth_run_spec cfg wc ops disabledDev hnn
  rw [hz] at h1 h3 h4
  have hev : ∀ (priv : bcmf_dev_s) (event : Nat → Nat) (len : Nat),
      (spec_assoc_complete cfg event = true →
        (bcmf_wl_auth_event_handler cfg priv event len).1.auth_signal = priv.auth_signal + 1 ∧
        (bcmf_wl_auth_event_handler cfg priv event len).2 = [Effect.sem_post_auth_signal]) ∧
      (spec_assoc_complete cfg event = false →
        bcmf_wl_auth_event_handler cfg priv event len = (priv, [])) := by
    intro priv event len
    unfold spec_assoc_complete bcmf_wl_auth_event_handler
    by_cases h : bcmf_getle32 event cfg.off_event_type = cfg.WLC_E_SET_SSID ∧
        bcmf_getle32 event cfg.off_event_status = cfg.WLC_E_STATUS_SUCCESS
    · simp [h, sem_post]
    · simp [h]
  refine ⟨hev, h3, h4, by rw [h1]; ring, h2 hnn, ?_⟩
  intro frames
  obtain ⟨h5, h6⟩ :=
    auth_run_spec cfg wc (frames.map fun f => AuthOp.auth_event f.1 f.2) disabledDev hnn
  rw [hz, spec_auth_run_events] at h5 h6
  constructor
  · rw [h5]; simp
  · rw [h6]

/-- Witness of the amended C17: two association-complete events and one other event,
then a `bcmf_wl_set_ssid` that takes one of the two posts: the count is 1, two posts
were made, and the calls are the two posts, the SSID command and the successful
wait. -/
theorem auth_signal_accounting_witness :
    (auth_run sampleConfig sampleWext disabledDev
      [AuthOp.auth_event (authFrame 0 0) 48, AuthOp.auth_event (authFrame 1 0) 48,
       AuthOp.auth_event (authFrame 0 0) 48,
       AuthOp.set_ssid ssidEnvQuiet (sampleReq 0 0 0)]).1.auth_signal = 1 ∧
    (auth_run sampleConfig sampleWext disabledDev
      [AuthOp.auth_event (authFrame 0 0) 48, AuthOp.auth_event (authFrame 1 0) 48,
       AuthOp.auth_event (authFrame 0 0) 48,
       AuthOp.set_ssid ssidEnvQuiet (sampleReq 0 0 0)]).2.count Effect.sem_post_auth_signal
      = 2 ∧
    (auth_run sampleConfig sampleWext disabledDev
      [AuthOp.auth_event (authFrame 0 0) 48, AuthOp.auth_event (authFrame 1 0) 48,
       AuthOp.auth_event (authFrame 0 0) 48,
       AuthOp.set_ssid ssidEnvQuiet (sampleReq 0 0 0)]).2
      = [Effect.sem_post_auth_signal, Effect.sem_post_auth_signal,
         Effect.bcmf_cdc_ioctl (IoctlCmd.WLC_SET_SSID [104, 111, 109, 101] 4),
         Effect.bcmf_sem_wait_auth_signal OK] :=
  have h := auth_signal_accounting sampleConfig sampleWext allocAllOk disabledDev
    [AuthOp.auth_event (authFrame 0 0) 48, AuthOp.auth_event (authFrame 1 0) 48,
     AuthOp.auth_event (authFrame 0 0) 48, AuthOp.set_ssid ssidEnvQuiet (sampleReq 0 0 0)]
    (by decide)
  ⟨h.2.1.trans (by decide), h.2.2.1.trans (by decide), by decide⟩

/-- C18: a request whose enumerated value is not recognized is refused with `-EINVAL`
before any transport call is issued: a WPA version other than disabled, WPA and WPA2
and a pairwise or group cipher other than WEP40, WEP104, TKIP and CCMP in
`bcmf_wl_set_auth_param`, and a key algorithm other than TKIP and CCMP in
`bcmf_wl_set_encode_ext`; whatever the transport would answer. -/
theorem unrecognized_value_rejected (wc : WextConfig) (io : Nat → Int) (iwr : iwreq) :
    (Nat.land iwr.param_flags wc.IW_AUTH_INDEX = wc.IW_AUTH_WPA_VERSION →
      iwr.param_value ≠ wc.IW_AUTH_WPA_VERSION_DISABLED →
      iwr.param_value ≠ wc.IW_AUTH_WPA_VERSION_WPA →
      iwr.param_value ≠ wc.IW_AUTH_WPA_VERSION_WPA2 →
      bcmf_wl_set_auth_param wc io iwr = (-EINVAL, [])) ∧
    (Nat.land iwr.param_flags wc.IW_AUTH_INDEX ≠ wc.IW_AUTH_WPA_VERSION →
      (Nat.land iwr.param_flags wc.IW_AUTH_INDEX = wc.IW_AUTH_CIPHER_PAIRWISE ∨
        Nat.land iwr.param_flags wc.IW_AUTH_INDEX = wc.IW_AUTH_CIPHER_GROUP) →
      iwr.param_value ≠ wc.IW_AUTH_CIPHER_WEP40 →
      iwr.param_value ≠ wc.IW_AUTH_CIPHER_WEP104 →
      iwr.param_value ≠ wc.IW_AUTH_CIPHER_TKIP →
      iwr.param_value ≠ wc.IW_AUTH_CIPHER_CCMP →
      bcmf_wl_set_auth_param wc io iwr = (-EINVAL, [])) ∧
    (iwr.encoding_ext.alg ≠ wc.IW_ENCODE_ALG_TKIP →
      iwr.encoding_ext.alg ≠ wc.IW_ENCODE_ALG_CCMP →
      bcmf_wl_set_encode_ext wc io iwr = (-EINVAL, [])) := by
  refine ⟨?_, ?_, ?_⟩
  · intro hidx h1 h2 h3
    unfold bcmf_wl_set_auth_param
    by_cases hi : bcmf_wl_get_interface wc iwr < 0
    · simp [hi]
    · simp [hi, hidx, wpa_version_switch, h1, h2, h3]
  · intro hidx hc h1 h2 h3 h4
    unfold bcmf_wl_set_auth_param
    by_cases hi : bcmf_wl_get_interface wc iwr < 0
    · simp [hi]
    · simp [hi, hidx, hc, cipher_switch, h1, h2, h3, h4]
  · intro h1 h2
    unfold bcmf_wl_set_encode_ext
    by_cases hi : bcmf_wl_get_interface wc iwr < 0
    · simp [hi]
    · simp [hi, h1, h2]

/-- C19, counterexample: `bcmf_wl_set_encode_ext` ends with
`return bcmf_cdc_ioctl(...)`: when its transport call fails with `-ENOMEM` the
operation returns `-ENOMEM`, not the I/O error `-EIO`. -/
theorem set_encode_ext_raw_error_counterexample :
    bcmf_wl_set_encode_ext sampleWext (fun _ => -ENOMEM) (sampleReq 0 0 2)
      = (-ENOMEM,
         [Effect.bcmf_cdc_ioctl
            (IoctlCmd.WLC_SET_WSEC_PMK [1, 2, 3, 4, 5, 6, 7, 8] 8 1)]) ∧
    -ENOMEM ≠ (0 : Int) ∧
    (bcmf_wl_set_encode_ext sampleWext (fun _ => -ENOMEM) (sampleReq 0 0 2)).1
      ≠ -EIO_errno := by
  decide

/-- Two transport calls in a row, the second issued only when the first succeeds: a
failed call is the last one issued and the result is `-EIO`. -/
theorem two_call_chain (io : Nat → Int) (c1 c2 : Effect) :
    ∀ k,
      k < (if io 0 ≠ 0 then ((-EIO_errno, [c1]) : Int × List Effect)
            else if io 1 ≠ 0 then (-EIO_errno, [c1, c2]) else (OK, [c1, c2])).2.length →
      io k ≠ 0 →
      (if io 0 ≠ 0 then ((-EIO_errno, [c1]) : Int × List Effect)
        else if io 1 ≠ 0 then (-EIO_errno, [c1, c2]) else (OK, [c1, c2])).1 = -EIO_errno ∧
      (if io 0 ≠ 0 then ((-EIO_errno, [c1]) : Int × List Effect)
        else if io 1 ≠ 0 then (-EIO_errno, [c1, c2]) else (OK, [c1, c2])).2.length = k + 1 := by
  intro k
  by_cases h0 : io 0 ≠ 0
  · rw [if_pos h0]
    intro hk _
    simp only [List.length_singleton] at hk ⊢
    exact ⟨trivial, by omega⟩
  · rw [if_neg h0]
    have h0' : io 0 = 0 := not_not.mp h0
    by_cases h1 : io 1 ≠ 0
    · rw [if_pos h1]
      intro hk hne
      simp only [List.length_cons, List.length_nil] at hk ⊢
      have hk1 : k = 1 := by
        rcases Nat.lt_or_ge k 1 with hlt | hge
        · have hk0 : k = 0 := by omega
          rw [hk0] at hne
          exact absurd h0' hne
        · omega
      exact ⟨trivial, by omega⟩
    · rw [if_neg h1]
      have h1' : io 1 = 0 := not_not.mp h1
      intro hk hne
      simp only [List.length_cons, List.length_nil] at hk
      have hk01 : k = 0 ∨ k = 1 := by omega
      rcases hk01 with hk0 | hk1
      · rw [hk0] at hne; exact absurd h0' hne
      · rw [hk1] at hne; exact absurd h1' hne

/-- C19, amended: in `bcmf_wl_set_auth_param`, `bcmf_wl_set_mode` and
`bcmf_wl_set_ssid`, as soon as one transport call reports failure (any non-zero
result) no later call is issued (the failed call is the last one, and
`bcmf_wl_set_ssid` does not wait) and the operation returns the I/O error `-EIO`.
`bcmf_wl_set_encode_ext` issues a single transport call and, when it fails, returns
the result of that call unchanged. -/
theorem transport_failure_aborts (cfg : Config) (wc : WextConfig) (io : Nat → Int)
    (env : SsidEnv) (priv : bcmf_dev_s) (iwr : iwreq) :
    (∀ k, k < (bcmf_wl_set_auth_param wc io iwr).2.length → io k ≠ 0 →
      (bcmf_wl_set_auth_param wc io iwr).1 = -EIO_errno ∧
      (bcmf_wl_set_auth_param wc io iwr).2.length = k + 1) ∧
    (∀ k, k < (bcmf_wl_set_mode wc io iwr).2.length → io k ≠ 0 →
      (bcmf_wl_set_mode wc io iwr).1 = -EIO_errno ∧
      (bcmf_wl_set_mode wc io iwr).2.length = k + 1) ∧
    (0 ≤ wc.CHIP_STA_INTERFACE → env.ioctl_ret ≠ 0 →
      bcmf_wl_set_ssid cfg wc env priv iwr
        = (-EIO_errno, priv,
           [Effect.bcmf_cdc_ioctl
              (IoctlCmd.WLC_SET_SSID (iwr.essid.take iwr.essid_length) iwr.essid_length)])) ∧
    (∀ k, k < (bcmf_wl_set_encode_ext wc io iwr).2.length → io k ≠ 0 →
      (bcmf_wl_set_encode_ext wc io iwr).1 = io k ∧
      (bcmf_wl_set_encode_ext wc io iwr).2.length = k + 1) := by
  refine ⟨?_, ?_, ?_, ?_⟩
  · unfold bcmf_wl_set_auth_param
    by_cases hi : bcmf_wl_get_interface wc iwr < 0
    · simp [hi]
    · simp only [hi, if_false]
      by_cases hidx : Nat.land iwr.param_flags wc.IW_AUTH_INDEX = wc.IW_AUTH_WPA_VERSION
      · simp only [hidx, if_true]
        cases wpa_version_switch wc iwr.param_value with
        | none => simp
        | some v => exact two_call_chain io _ _
      · simp only [hidx, if_false]
        by_cases hc : Nat.land iwr.param_flags wc.IW_AUTH_INDEX = wc.IW_AUTH_CIPHER_PAIRWISE ∨
            Nat.land iwr.param_flags wc.IW_AUTH_INDEX = wc.IW_AUTH_CIPHER_GROUP
        · simp only [hc, if_true]
          cases cipher_switch wc iwr.param_value with
          | none => simp
          | some v => exact two_call_chain io _ _
        · simp [hc]
  · unfold bcmf_wl_set_mode
    by_cases hi : bcmf_wl_get_interface wc iwr < 0
    · simp [hi]
    · simp only [hi, if_false]
      by_cases h0 : io 0 ≠ 0
      · rw [if_pos h0]
        intro k hk _
        simp only [List.length_singleton] at hk ⊢
        exact ⟨trivial, by omega⟩
      · rw [if_neg h0]
        have h0' : io 0 = 0 := not_not.mp h0
        intro k hk hne
        simp only [List.length_singleton] at hk
        have hk0 : k = 0 := by omega
        rw [hk0] at hne
        exact absurd h0' hne
  · intro hif hio
    have hi : ¬ wc.CHIP_STA_INTERFACE < 0 := not_lt.mpr hif
    unfold bcmf_wl_set_ssid bcmf_wl_get_interface
    simp [hi, hio]
  · unfold bcmf_wl_set_encode_ext
    by_cases hi : bcmf_wl_get_interface wc iwr < 0
    · simp [hi]
    · simp only [hi, if_false]
      by_cases ha : iwr.encoding_ext.alg = wc.IW_ENCODE_ALG_TKIP ∨
          iwr.encoding_ext.alg = wc.IW_ENCODE_ALG_CCMP
      · rw [if_pos ha]
        intro k hk _
        simp only [List.length_singleton] at hk ⊢
        have hk0 : k = 0 := by omega
        exact ⟨by rw [hk0], by omega⟩
      · simp [ha]

/-! ## Frame validation -/

/-- A difference of two sizes, the larger below `2 ^ 32`, is not changed by the
reduction to 32 bits. -/
theorem u32_sub_of_le (a b : Nat) (hba : b ≤ a) (ha : a < 4294967296) :
    u32 ((a : Int) - (b : Int)) = a - b := by
  unfold u32
  have e : (a : Int) - (b : Int) = ((a - b : Nat) : Int) := by omega
  rw [e]
  have hlt : ((a - b : Nat) : Int) < 4294967296 := by omega
  rw [Int.emod_eq_of_lt (Int.ofNat_nonneg _) hlt]
  exact Int.toNat_ofNat _

/-- The payload length the handler works with never exceeds the length the event
header declares. -/
theorem escan_payload_len_le (cfg : Config) (event : Nat → Nat) (len : Nat) :
    escan_payload_len cfg event len ≤ bcmf_getle32 event cfg.off_event_len := by
  unfold escan_payload_len
  simp only []
  split_ifs with h
  · exact le_refl _
  · exact not_lt.mp h

/-- C21: for every device state (a running scan included) and every frame whose event
header declares an envelope length smaller than the bare result header
(`sizeof(struct wl_escan_result) - sizeof(struct wl_bss_info)`), whatever the status
code of the frame, `bcmf_wl_scan_event_handler` takes the frame for malformed (exit
`len < sizeof(struct wl_escan_result)`) and leaves the device unchanged (status,
request buffer, gate count, timer) without any call. -/
theorem scan_event_short_envelope (cfg : Config) (priv : bcmf_dev_s) (event : Nat → Nat)
    (len : Nat)
    (hsz : cfg.sizeof_wl_bss_info ≤ cfg.sizeof_wl_escan_result)
    (h32 : cfg.sizeof_wl_escan_result < 4294967296)
    (hdecl : bcmf_getle32 event cfg.off_event_len
      < cfg.sizeof_wl_escan_result - cfg.sizeof_wl_bss_info) :
    escan_result_process cfg event len = EscanParse.too_short ∧
    bcmf_wl_scan_event_handler cfg priv event len = (priv, []) := by
  have hle := escan_payload_len_le cfg event len
  have hu := u32_sub_of_le cfg.sizeof_wl_escan_result cfg.sizeof_wl_bss_info hsz h32
  have h1 : ¬ escan_payload_len cfg event len
      = u32 ((cfg.sizeof_wl_escan_result : Int) - (cfg.sizeof_wl_bss_info : Int)) := by
    rw [hu]; omega
  have h2 : escan_payload_len cfg event len < cfg.sizeof_wl_escan_result := by omega
  have hproc : escan_result_process cfg event len = EscanParse.too_short := by
    unfold escan_result_process
    simp only [h1, if_false, h2, if_true]
  refine ⟨hproc, ?_⟩
  unfold bcmf_wl_scan_event_handler
  by_cases hlt : priv.scan_status < BCMF_SCAN_RUN
  · rw [if_pos hlt]
  · rw [if_neg hlt, hproc]
    simp [EscanParse.reaches_processed]

/-- Witness of C21: a frame that declares a 10-byte envelope, delivered to the device
whose scan is in flight. -/
theorem scan_event_short_envelope_witness :
    runningDev.scan_status = BCMF_SCAN_RUN ∧
    bcmf_wl_scan_event_handler sampleConfig runningDev shortEnvelopeFrame 58
      = (runningDev, []) :=
  ⟨rfl,
   (scan_event_short_envelope sampleConfig runningDev shortEnvelopeFrame 58 (by decide)
      (by decide) (by decide)).2⟩

/-- The walk never counts more records than the counter still admits. -/
theorem bss_loop_count_le (cfg : Config) (mem : Nat → Nat) :
    ∀ (todo len bss bss_count : Nat),
      (bss_loop cfg mem todo len bss bss_count).bss_count ≤ bss_count + todo := by
  intro todo
  induction todo with
  | zero => intro len bss c; simp [bss_loop, BssWalk.bss_count]
  | succ n ih =>
    intro len bss c
    unfold bss_loop
    by_cases hlen : 0 < len
    · rw [if_pos hlen]
      by_cases hov : len < read_u32 mem (bss + cfg.off_bss_length)
      · simp only [hov, if_true, BssWalk.bss_count]
        omega
      · simp only [hov, if_false]
        have := ih (len - read_u32 mem (bss + cfg.off_bss_length))
          (bss + read_u32 mem (bss + cfg.off_bss_length)) (c + 1)
        omega
    · rw [if_neg hlen]
      simp only [BssWalk.bss_count]
      omega

/-- The loop of the source, given more evaluations of its condition than the counter
admits records, ends, and with the result of `bss_loop`. -/
theorem bss_loop_iter_eq (cfg : Config) (mem : Nat → Nat) (total : Nat) :
    ∀ (todo fuel len bss bss_count : Nat), bss_count + todo = total → todo < fuel →
      bss_loop_iter cfg mem total fuel len bss bss_count
        = some (bss_loop cfg mem todo len bss bss_count) := by
  intro todo
  induction todo with
  | zero =>
    intro fuel len bss c hc hf
    obtain ⟨f, rfl⟩ : ∃ f, fuel = f + 1 := ⟨fuel - 1, by omega⟩
    have hnot : ¬ (0 < len ∧ c < total) := by omega
    simp only [bss_loop_iter, hnot, if_false, bss_loop]
  | succ n ih =>
    intro fuel len bss c hc hf
    obtain ⟨f, rfl⟩ : ∃ f, fuel = f + 1 := ⟨fuel - 1, by omega⟩
    unfold bss_loop_iter bss_loop
    by_cases hlen : 0 < len
    · have hcond : 0 < len ∧ c < total := ⟨hlen, by omega⟩
      rw [if_pos hcond, if_pos hlen]
      by_cases hov : len < read_u32 mem (bss + cfg.off_bss_length)
      · simp only [hov, if_true]
      · simp only [hov, if_false]
        exact ih f _ _ (c + 1) (by omega) (by omega)
    · have hcond : ¬ (0 < len ∧ c < total) := fun h => hlen h.1
      rw [if_neg hcond, if_neg hlen]

/-- C22: for every frame, every number of bytes `len` on entry and every recorded
count `total`, the loop over the network descriptors ends (given `total + 1` or more
evaluations of its condition it returns a result, never running out) and it has then
gone past at most `total` records, however many bytes remain; this includes frames
whose records declare the length 0. -/
theorem bss_loop_terminates (cfg : Config) (mem : Nat → Nat) (total len bss : Nat) :
    (∀ fuel, total < fuel →
      bss_loop_iter cfg mem total fuel len bss 0 = some (bss_loop cfg mem total len bss 0)) ∧
    (bss_loop cfg mem total len bss 0).bss_count ≤ total := by
  constructor
  · intro fuel hf
    exact bss_loop_iter_eq cfg mem total total fuel len bss 0 (by omega) hf
  · have h := bss_loop_count_le cfg mem total len bss 0
    omega

/-- Witness of C22: in a frame that records 3 descriptors, all declaring the length
0, the loop ends after the third record with all 128 bytes still remaining, and the
handler completes the scan. -/
theorem bss_loop_terminates_witness :
    bss_loop_iter sampleConfig zeroLengthFrame 3 4 128 60 0
      = some (BssWalk.processed 128 3) ∧
    escan_result_process sampleConfig zeroLengthFrame 188
      = EscanParse.walked (BssWalk.processed 128 3) ∧
    (bcmf_wl_scan_event_handler sampleConfig runningDev zeroLengthFrame 188).1.scan_status
      = BCMF_SCAN_DONE := by
  have h := (bss_loop_terminates sampleConfig zeroLengthFrame 3 128 60).1 4 (by decide)
  refine ⟨?_, by decide, by decide⟩
  rw [h]
  decide

/-! ## Encoding of the authentication parameters -/

/-- C23: when every transport call succeeds (and the case labels of the switches are
distinct constants, the station interface index not negative),
`bcmf_wl_set_auth_param` returns `OK` after exactly two transport calls, in this
order and with this content: for a WPA version, the iovar `bsscfg:sup_wpa` with the
supplicant flag and then the ioctl `WLC_SET_WPA_AUTH` with the auth mode (disabled:
flag 0 and `WPA_AUTH_DISABLED`; WPA: flag 1 and `WPA_AUTH_PSK`; WPA2: flag 1 and
`WPA2_AUTH_PSK`); for a pairwise or group cipher, the ioctl `WLC_SET_WSEC` with the
cipher mode and then the ioctl `WLC_SET_AUTH` with the 802.11 auth value (WEP40 or
WEP104: `WEP_ENABLED` and 1; TKIP: `TKIP_ENABLED` and 0; CCMP: `AES_ENABLED` and 0). -/
theorem set_auth_param_encoding (wc : WextConfig) (io : Nat → Int) (iwr : iwreq)
    (hif : 0 ≤ wc.CHIP_STA_INTERFACE)
    (hio : ∀ k, io k = 0)
    (hver : wc.IW_AUTH_WPA_VERSION_DISABLED ≠ wc.IW_AUTH_WPA_VERSION_WPA ∧
      wc.IW_AUTH_WPA_VERSION_DISABLED ≠ wc.IW_AUTH_WPA_VERSION_WPA2 ∧
      wc.IW_AUTH_WPA_VERSION_WPA ≠ wc.IW_AUTH_WPA_VERSION_WPA2)
    (hcip : wc.IW_AUTH_CIPHER_WEP40 ≠ wc.IW_AUTH_CIPHER_TKIP ∧
      wc.IW_AUTH_CIPHER_WEP104 ≠ wc.IW_AUTH_CIPHER_TKIP ∧
      wc.IW_AUTH_CIPHER_WEP40 ≠ wc.IW_AUTH_CIPHER_CCMP ∧
      wc.IW_AUTH_CIPHER_WEP104 ≠ wc.IW_AUTH_CIPHER_CCMP ∧
      wc.IW_AUTH_CIPHER_TKIP ≠ wc.IW_AUTH_CIPHER_CCMP)
    (hidx : wc.IW_AUTH_CIPHER_PAIRWISE ≠ wc.IW_AUTH_WPA_VERSION ∧
      wc.IW_AUTH_CIPHER_GROUP ≠ wc.IW_AUTH_WPA_VERSION) :
    (Nat.land iwr.param_flags wc.IW_AUTH_INDEX = wc.IW_AUTH_WPA_VERSION →
      (iwr.param_value = wc.IW_AUTH_WPA_VERSION_DISABLED →
        bcmf_wl_set_auth_param wc io iwr
          = (OK,
             [Effect.bcmf_cdc_iovar_request
                (IovarName.bsscfg_IOVAR_STR_SUP_WPA wc.CHIP_STA_INTERFACE 0),
              Effect.bcmf_cdc_ioctl (IoctlCmd.WLC_SET_WPA_AUTH wc.WPA_AUTH_DISABLED)])) ∧
      (iwr.param_value = wc.IW_AUTH_WPA_VERSION_WPA →
        bcmf_wl_set_auth_param wc io iwr
          = (OK,
             [Effect.bcmf_cdc_iovar_request
                (IovarName.bsscfg_IOVAR_STR_SUP_WPA wc.CHIP_STA_INTERFACE 1),
              Effect.bcmf_cdc_ioctl (IoctlCmd.WLC_SET_WPA_AUTH wc.WPA_AUTH_PSK)])) ∧
      (iwr.param_value = wc.IW_AUTH_WPA_VERSION_WPA2 →
        bcmf_wl_set_auth_param wc io iwr
          = (OK,
             [Effect.bcmf_cdc_iovar_request
                (IovarName.bsscfg_IOVAR_STR_SUP_WPA wc.CHIP_STA_INTERFACE 1),
              Effect.bcmf_cdc_ioctl (IoctlCmd.WLC_SET_WPA_AUTH wc.WPA2_AUTH_PSK)]))) ∧
    ((Nat.land iwr.param_flags wc.IW_AUTH_INDEX = wc.IW_AUTH_CIPHER_PAIRWISE ∨
        Nat.land iwr.param_flags wc.IW_AUTH_INDEX = wc.IW_AUTH_CIPHER_GROUP) →
      ((iwr.param_value = wc.IW_AUTH_CIPHER_WEP40 ∨
          iwr.param_value = wc.IW_AUTH_CIPHER_WEP104) →
        bcmf_wl_set_auth_param wc io iwr
          = (OK,
             [Effect.bcmf_cdc_ioctl (IoctlCmd.WLC_SET_WSEC wc.WEP_ENABLED),
              Effect.bcmf_cdc_ioctl (IoctlCmd.WLC_SET_AUTH 1)])) ∧
      (iwr.param_value = wc.IW_AUTH_CIPHER_TKIP →
        bcmf_wl_set_auth_param wc io iwr
          = (OK,
             [Effect.bcmf_cdc_ioctl (IoctlCmd.WLC_SET_WSEC wc.TKIP_ENABLED),
              Effect.bcmf_cdc_ioctl (IoctlCmd.WLC_SET_AUTH 0)])) ∧
      (iwr.param_value = wc.IW_AUTH_CIPHER_CCMP →
        bcmf_wl_set_auth_param wc io iwr
          = (OK,
             [Effect.bcmf_cdc_ioctl (IoctlCmd.WLC_SET_WSEC wc.AES_ENABLED),
              Effect.bcmf_cdc_ioctl (IoctlCmd.WLC_SET_AUTH 0)]))) := by
  have hi : ¬ wc.CHIP_STA_INTERFACE < 0 := not_lt.mpr hif
  obtain ⟨hv1, hv2, hv3⟩ := hver
  obtain ⟨hc1, hc2, hc3, hc4, hc5⟩ := hcip
  obtain ⟨hx1, hx2⟩ := hidx
  have h0 := hio 0
  have h1 := hio 1
  constructor
  · intro hsel
    refine ⟨?_, ?_, ?_⟩
    · intro hv
      unfold bcmf_wl_set_auth_param bcmf_wl_get_interface wpa_version_switch
      simp [hi, hsel, hv, h0, h1]
    · intro hv
      unfold bcmf_wl_set_auth_param bcmf_wl_get_interface wpa_version_switch
      simp [hi, hsel, hv, h0, h1, hv1.symm]
    · intro hv
      unfold bcmf_wl_set_auth_param bcmf_wl_get_interface wpa_version_switch
      simp [hi, hsel, hv, h0, h1, hv2.symm, hv3.symm]
  · intro hsel
    have hnv : ¬ Nat.land iwr.param_flags wc.IW_AUTH_INDEX = wc.IW_AUTH_WPA_VERSION := by
      rcases hsel with h | h
      · rw [h]; exact hx1
      · rw [h]; exact hx2
    refine ⟨?_, ?_, ?_⟩
    · intro hv
      unfold bcmf_wl_set_auth_param bcmf_wl_get_interface cipher_switch
      simp [hi, hnv, hsel, hv, h0, h1]
    · intro hv
      unfold bcmf_wl_set_auth_param bcmf_wl_get_interface cipher_switch
      simp [hi, hnv, hsel, hv, h0, h1, hc1.symm, hc2.symm]
    · intro hv
      unfold bcmf_wl_set_auth_param bcmf_wl_get_interface cipher_switch
      simp [hi, hnv, hsel, hv, h0, h1, hc3.symm, hc4.symm, hc5.symm]

/-- Witness of C23: the request for WPA2 with the constants of the headers. -/
theorem set_auth_param_encoding_witness :
    bcmf_wl_set_auth_param sampleWext (fun _ => 0) (sampleReq 0 4 0)
      = (OK,
         [Effect.bcmf_cdc_iovar_request (IovarName.bsscfg_IOVAR_STR_SUP_WPA 0 1),
          Effect.bcmf_cdc_ioctl (IoctlCmd.WLC_SET_WPA_AUTH 128)]) :=
  ((set_auth_param_encoding sampleWext (fun _ => 0) (sampleReq 0 4 0) (by decide)
      (fun _ => rfl) (by decide) (by decide) (by decide)).1 (by decide)).2.2 rfl

/-! ## The value of `auth_status` -/

/-- The function `bcmf_wl_start_scan` does not write `auth_status`. -/
theorem start_scan_auth_status (cfg : Config) (env : ScanEnv) (priv : bcmf_dev_s) :
    (bcmf_wl_start_scan cfg env priv).priv.auth_status = priv.auth_status := by
  unfold bcmf_wl_start_scan sem_wait
  by_cases h0 : env.ioctl_ret ≠ 0
  · rw [if_pos h0]; rfl
  · rw [if_neg h0]
    by_cases hg : 0 < priv.control_mutex
    · simp only [hg, if_true]
      split_ifs <;> rfl
    · simp only [hg, if_false]
      cases hi : env.sem_wait_interrupted
      · rfl
      · simp only [if_true]
        split_ifs <;> rfl

/-- The auth event handler leaves `auth_status` at `OK` when it was `OK`. -/
theorem auth_event_auth_status (cfg : Config) (priv : bcmf_dev_s) (event : Nat → Nat)
    (len : Nat) (h : priv.auth_status = OK) :
    (bcmf_wl_auth_event_handler cfg priv event len).1.auth_status = OK := by
  unfold bcmf_wl_auth_event_handler
  simp only []
  split_ifs
  · rfl
  · exact h

/-- The bounded wait on `auth_signal`, with the events handled meanwhile, leaves
`auth_status` at `OK` when it was `OK`. -/
theorem sem_wait_auth_status (cfg : Config) :
    ∀ (events : List ((Nat → Nat) × Nat)) (priv : bcmf_dev_s),
      priv.auth_status = OK → (bcmf_sem_wait cfg events priv).2.1.auth_status = OK := by
  intro events
  induction events with
  | nil =>
    intro priv h
    unfold bcmf_sem_wait
    split_ifs <;> exact h
  | cons e rest ih =>
    intro priv h
    unfold bcmf_sem_wait
    split_ifs
    · exact h
    · exact ih _ (auth_event_auth_status cfg priv e.1 e.2 h)

/-- The function `bcmf_wl_set_ssid` leaves `auth_status` at `OK` when it was `OK`. -/
theorem set_ssid_auth_status (cfg : Config) (wc : WextConfig) (env : SsidEnv)
    (priv : bcmf_dev_s) (iwr : iwreq) (h : priv.auth_status = OK) :
    (bcmf_wl_set_ssid cfg wc env priv iwr).2.1.auth_status = OK := by
  have hw := sem_wait_auth_status cfg env.wait_events priv h
  unfold bcmf_wl_set_ssid
  simp only []
  split_ifs <;> first | exact h | exact hw

/-- In every state the driver can reach `auth_status` is `OK`. -/
theorem reachable_auth_status (cfg : Config) (wc : WextConfig) (priv : bcmf_dev_s)
    (h : DriverReachable cfg wc priv) : priv.auth_status = OK := by
  induction h with
  | fresh env priv hf =>
    rw [allocate_device_some env priv hf]
    rfl
  | start_scan env priv _ ih =>
    rw [start_scan_auth_status]; exact ih
  | scan_event priv event len _ ih =>
    rcases scan_event_cases cfg priv event len with he | ⟨_, he⟩ | ⟨p, _, he⟩ <;>
      (rw [he]; exact ih)
  | scan_timeout priv _ ih =>
    rcases scan_timeout_cases priv with he | ⟨_, he⟩ <;> (rw [he]; exact ih)
  | is_scan_done priv _ ih =>
    have he : (bcmf_wl_is_scan_done priv).2 = priv := by
      unfold bcmf_wl_is_scan_done
      split_ifs <;> rfl
    rw [he]; exact ih
  | auth_event priv event len _ ih =>
    exact auth_event_auth_status cfg priv event len ih
  | set_ssid env iwr priv _ ih =>
    exact set_ssid_auth_status cfg wc env priv iwr ih

/-- C25: in every state reachable from a freshly constructed device by the operations
of the driver, `auth_status` is `OK` (0).  So whenever `bcmf_wl_set_ssid` issues its
SSID command with success and its wait on `auth_signal` succeeds, `auth_status` is
`OK` when it is inspected and the call returns `OK`: the branch "AP join failed" is
not taken. -/
theorem auth_status_always_ok (cfg : Config) (wc : WextConfig) (priv : bcmf_dev_s)
    (h : DriverReachable cfg wc priv) :
    priv.auth_status = OK ∧
    ∀ (env : SsidEnv) (iwr : iwreq),
      (bcmf_sem_wait cfg env.wait_events priv).2.1.auth_status = OK ∧
      (0 ≤ wc.CHIP_STA_INTERFACE → env.ioctl_ret = 0 →
        (bcmf_sem_wait cfg env.wait_events priv).1 = 0 →
        (bcmf_wl_set_ssid cfg wc env priv iwr).1 = OK) := by
  have h0 := reachable_auth_status cfg wc priv h
  refine ⟨h0, ?_⟩
  intro env iwr
  have hw := sem_wait_auth_status cfg env.wait_events priv h0
  refine ⟨hw, ?_⟩
  intro hif hio hwait
  have hi : ¬ wc.CHIP_STA_INTERFACE < 0 := not_lt.mpr hif
  unfold bcmf_wl_set_ssid bcmf_wl_get_interface
  simp [hi, hio, hwait, hw]

/-- Witness of C25: after construction and one association-complete event, a
`bcmf_wl_set_ssid` whose command succeeds finds the signal posted and returns `OK`. -/
theorem auth_status_always_ok_witness :
    (bcmf_wl_auth_event_handler sampleConfig disabledDev (authFrame 0 0) 48).1.auth_status
      = OK ∧
    (bcmf_wl_set_ssid sampleConfig sampleWext ssidEnvQuiet
      (bcmf_wl_auth_event_handler sampleConfig disabledDev (authFrame 0 0) 48).1
      (sampleReq 0 0 0)).1 = OK :=
  have h := auth_status_always_ok sampleConfig sampleWext
    (bcmf_wl_auth_event_handler sampleConfig disabledDev (authFrame 0 0) 48).1
    (DriverReachable.auth_event disabledDev (authFrame 0 0) 48
      (DriverReachable.fresh allocAllOk disabledDev (by decide)))
  ⟨h.1, (h.2 ssidEnvQuiet (sampleReq 0 0 0)).2 (by decide) (by decide) (by decide)⟩

/-! ## Reads beyond the frame -/

/-- C24, the code at the failing inputs.  In a frame of 188 bytes whose first
descriptor declares 125 of the 128 bytes of the records area, the loop finds 3 bytes
left and reads `bss->length` of the second descriptor at offset 189, beyond the last
byte of the frame (offset 187); the handler then completes the scan.  And with a
frame length of 10, shorter than the 48-byte event header, the unsigned subtraction
wraps, the payload length becomes the declared 140, and the handler reads
`result->buflen` at offset 48 and the records after it. -/
theorem escan_reads_past_frame :
    escan_reads sampleConfig runningDev overreadFrame 188
      = [(48, 4), (58, 2), (64, 4), (58, 2), (189, 4), (58, 2)] ∧
    ¬ (189 < 188) ∧
    (bcmf_wl_scan_event_handler sampleConfig runningDev overreadFrame 188).1.scan_status
      = BCMF_SCAN_DONE ∧
    u32 ((10 : Int) - (sampleConfig.sizeof_bcmf_event_s : Int)) = 4294967258 ∧
    escan_payload_len sampleConfig overreadFrame 10 = 140 ∧
    escan_reads sampleConfig runningDev overreadFrame 10
      = [(48, 4), (58, 2), (64, 4), (58, 2), (189, 4), (58, 2)] ∧
    ¬ (48 < 10) := by
  decide

/-! ## `icmp_send` -/

end Bcmf
